import Mathlib

set_option maxRecDepth 100000

/-!
Verification development for the Challenge-Lab AI Author core
(multi-provider AI service layer with retry/backoff and output normalization).

The definitions below are a shallow embedding of the TypeScript sources:
  - services/outputNormalizer.ts   (class OutputNormalizer)
  - services/openaiProvider.ts     (class OpenAIService)
  - services/ollamaProvider.ts     (class OllamaService)
  - services/geminiProvider.ts     (class GeminiService)
  - services/aiServiceFactory.ts   (createAIService)
  - services/aiServiceTypes.ts     (AIConfig and friends)

Strings are modelled as Lean `String`s, with the regex-based text passes
hand-compiled to explicit character-list scanners reproducing the semantics
of JavaScript `String.prototype.replace` with the concrete patterns used in
the source (left-to-right scan, non-overlapping, continue after each match).
-/

namespace StrUtil

/-- Predicate `startsWithL pat l` : `pat` is a prefix of `l` (character lists). -/
def startsWithL : List Char → List Char → Bool
  | [], _ => true
  | _ :: _, [] => false
  | p :: ps, c :: cs => p = c && startsWithL ps cs

/-- Predicate `containsSubL pat l` : `pat` occurs as a contiguous substring of `l`. -/
def containsSubL (pat : List Char) : List Char → Bool
  | [] => startsWithL pat []
  | c :: cs => startsWithL pat (c :: cs) || containsSubL pat cs

/-- String-level substring containment (used to model JS `String.includes`). -/
def containsSub (s pat : String) : Bool := containsSubL pat.data s.data

/-- JS `toLowerCase()` (ASCII range, character-wise; the source only ever
compares against the ASCII literal `'api key'`). -/
def toLowerStr (s : String) : String := ⟨s.data.map Char.toLower⟩

/-- One step of a global replace: scan with `step`; where `step` fires it
returns the replacement output and the unconsumed rest. `fuel` bounds the
recursion; callers pass the list length (every match consumes at least one
character, so this fuel is always sufficient). -/
def scanStep (step : List Char → Option (List Char × List Char)) :
    Nat → List Char → List Char
  | 0, l => l
  | _ + 1, [] => []
  | n + 1, c :: cs =>
    match step (c :: cs) with
    | some (out, rest) => out ++ scanStep step n rest
    | none => c :: scanStep step n cs

/-- Global replace driven by a match `step` (JS `replace(/pat/g, rep)`). -/
def runScan (step : List Char → Option (List Char × List Char)) (l : List Char) :
    List Char := scanStep step l.length l

/-- Variant of `scanStep` for patterns anchored with multiline `^`: the scan
tracks whether the current position is at the start of a line, and `step`
additionally reports whether the position after its match is at a line
start (i.e. whether the last consumed character was a newline). -/
def scanStepM (step : List Char → Option (List Char × List Char × Bool)) :
    Nat → Bool → List Char → List Char
  | 0, _, l => l
  | _ + 1, _, [] => []
  | n + 1, atStart, c :: cs =>
    match (if atStart then step (c :: cs) else none) with
    | some (out, rest, at2) => out ++ scanStepM step n at2 rest
    | none => c :: scanStepM step n (c = '\n') cs

/-- Global replace for a multiline `^`-anchored pattern. -/
def runScanM (step : List Char → Option (List Char × List Char × Bool))
    (l : List Char) : List Char := scanStepM step l.length true l

/-- Match step for a literal pattern `pat` replaced by `rep`. -/
def litStep (pat rep : List Char) (l : List Char) :
    Option (List Char × List Char) :=
  if pat ≠ [] ∧ startsWithL pat l then some (rep, l.drop pat.length) else none

/-- JS `s.replace(/lit/g, rep)` for a literal pattern. -/
def replaceLit (pat rep : List Char) (l : List Char) : List Char :=
  runScan (litStep pat rep) l

/-- Split into lines at `'\n'` (JS `split('\n')`). -/
def splitNl (l : List Char) : List (List Char) := l.splitOn '\n'

/-- Join lines with `'\n'` (JS `join('\n')`). -/
def joinNl : List (List Char) → List Char
  | [] => []
  | [x] => x
  | x :: y :: t => x ++ '\n' :: joinNl (y :: t)

/-- JS `trimEnd()` on one line. -/
def trimRightWs (l : List Char) : List Char :=
  (l.reverse.dropWhile Char.isWhitespace).reverse

/-- JS `trim()`. -/
def trimWs (l : List Char) : List Char :=
  trimRightWs (l.dropWhile Char.isWhitespace)

/-- Function `splitFirst pat l` : split `l` around the first occurrence of `pat`,
returning the part before the match and the part after it. -/
def splitFirst (pat : List Char) : List Char → Option (List Char × List Char)
  | [] => if pat = [] then some ([], []) else none
  | c :: cs =>
    if pat ≠ [] ∧ startsWithL pat (c :: cs) then
      some ([], (c :: cs).drop pat.length)
    else
      match splitFirst pat cs with
      | some (pre, post) => some (c :: pre, post)
      | none => none

end StrUtil

namespace OutputNormalizer

open StrUtil

/-- Literal `:::ShowGuided(ShowGuided=Yes)` — opening marker of a guided-hint block. -/
def guidedHeader : List Char := ":::ShowGuided(ShowGuided=Yes)".data

/-- Literal `:::ShowAdvanced(ShowAdvanced=Yes)` — opening marker of an advanced-hint
block. -/
def advancedHeader : List Char := ":::ShowAdvanced(ShowAdvanced=Yes)".data

/-- Block terminator `:::`. -/
def blockClose : List Char := ":::".data

/-- JS `content.replace(/(HEADER[\s\S]*?:::)/g, f)`: each block runs from a
literal header to the nearest following `:::` (lazy match); `f` is the
replacement callback applied to the whole matched block. -/
def replaceBlocksFuel (header : List Char) (f : List Char → List Char) :
    Nat → List Char → List Char
  | 0, l => l
  | _ + 1, [] => []
  | n + 1, c :: cs =>
    if startsWithL header (c :: cs) then
      match splitFirst blockClose ((c :: cs).drop header.length) with
      | some (mid, after) =>
        f (header ++ mid ++ blockClose) ++ replaceBlocksFuel header f n after
      | none => c :: replaceBlocksFuel header f n cs
    else c :: replaceBlocksFuel header f n cs

/-- Entry point for block-wise replacement. -/
def replaceBlocks (header : List Char) (f : List Char → List Char)
    (l : List Char) : List Char := replaceBlocksFuel header f l.length l

/-- Source: `fixDoubleGreaterThan` — global replacement of the literal
`"> >-"` by `"> -"`. -/
def fixDoubleGreaterThan (content : List Char) : List Char :=
  replaceLit "> >-".data "> -".data content

/-- Match step for `/>\n>\n(>[-\[])/g` with replacement `'>\n$1'`. -/
def guidedSpacingStep : List Char → Option (List Char × List Char)
  | '>' :: '\n' :: '>' :: '\n' :: '>' :: c :: rest =>
    if c = '-' ∨ c = '[' then some ("\n>".data.reverse ++ ['>', c], rest)
    else none
  | _ => none

/-- Source: `fixGuidedHintSpacing` — inside each guided block, collapse
`>\n>\n` immediately before `>-` or `>[` down to `>\n`. -/
def fixGuidedHintSpacing (content : List Char) : List Char :=
  replaceBlocks guidedHeader (fun block => runScan guidedSpacingStep block) content

/-- Pattern `(?:>[^\n]*\n)*` (greedy): consume consecutive complete `>`-lines, each
terminated by `'\n'`; returns (consumed, rest). The fuel (instantiated
with the list length, always sufficient since each unit consumes at least
two characters) keeps the recursion structural. -/
def takeContLinesFuel : Nat → List Char → List Char × List Char
  | 0, l => ([], l)
  | n + 1, '>' :: t =>
    match t.dropWhile (· ≠ '\n') with
    | '\n' :: t3 =>
      let (more, rest) := takeContLinesFuel n t3
      ('>' :: (t.takeWhile (· ≠ '\n') ++ '\n' :: more), rest)
    | _ => ([], '>' :: t)
  | _ + 1, l => ([], l)

/-- Entry point for the continuation-line consumer. -/
def takeContLines (l : List Char) : List Char × List Char :=
  takeContLinesFuel l.length l

/-- Match step for a callout pattern `/>\s*\[TAG\][^\n]*\n((?:>[^\n]*\n)*)/`:
a `>` followed by whitespace, the literal tag, the rest of that line, its
newline, and all immediately following `>`-lines. Returns (match, rest). -/
def calloutMatch (tag : List Char) : List Char → Option (List Char × List Char)
  | '>' :: t =>
    let ws := t.takeWhile Char.isWhitespace
    let t2 := t.dropWhile Char.isWhitespace
    if startsWithL tag t2 then
      let t3 := t2.drop tag.length
      let lineRest := t3.takeWhile (· ≠ '\n')
      match t3.dropWhile (· ≠ '\n') with
      | '\n' :: t5 =>
        let (cont, rest) := takeContLines t5
        some ('>' :: (ws ++ tag ++ lineRest ++ '\n' :: cont), rest)
      | _ => none
    else none
  | _ => none

/-- Global extraction of one callout tag from a block: removes every match
and accumulates the trimmed matched text in encounter order; mirrors
`cleanedGuidedBlock.replace(tagRegex, m => { extracted.push(m.trim()); return ''; })`. -/
def extractCalloutsFuel (tag : List Char) :
    Nat → List Char → List Char × List (List Char)
  | 0, l => (l, [])
  | _ + 1, [] => ([], [])
  | n + 1, c :: cs =>
    match calloutMatch tag (c :: cs) with
    | some (m, rest) =>
      let (r, acc) := extractCalloutsFuel tag n rest
      (r, trimWs m :: acc)
    | none =>
      let (r, acc) := extractCalloutsFuel tag n cs
      (c :: r, acc)

/-- Run one tag extraction over a whole block. -/
def extractCallouts (tag : List Char) (l : List Char) :
    List Char × List (List Char) := extractCalloutsFuel tag l.length l

/-- The per-guided-block body of `extractAndRelocateAlertBlocks`: extract
`[+alert]`, then `[!note]`, then `[!help]` callouts (in that fixed pass
order, as in the source), then collapse `>\n>\n>\n` to `>\n>\n` once. -/
def cleanGuidedBlock (block : List Char) : List Char × List (List Char) :=
  let (b1, alerts) := extractCallouts "[+alert]".data block
  let (b2, notes) := extractCallouts "[!note]".data b1
  let (b3, helps) := extractCallouts "[!help]".data b2
  (replaceLit ">\n>\n>\n".data ">\n>\n".data b3, alerts ++ notes ++ helps)

/-- Block-wise replacement that also threads an accumulator of extracted
callout blocks across all guided blocks (source: the shared
`extractedBlocks` array). -/
def cleanGuidedBlocksFuel :
    Nat → List Char → List Char × List (List Char)
  | 0, l => (l, [])
  | _ + 1, [] => ([], [])
  | n + 1, c :: cs =>
    if startsWithL guidedHeader (c :: cs) then
      match splitFirst blockClose ((c :: cs).drop guidedHeader.length) with
      | some (mid, after) =>
        let (cleaned, ex) := cleanGuidedBlock (guidedHeader ++ mid ++ blockClose)
        let (r, acc) := cleanGuidedBlocksFuel n after
        (cleaned ++ r, ex ++ acc)
      | none =>
        let (r, acc) := cleanGuidedBlocksFuel n cs
        (c :: r, acc)
    else
      let (r, acc) := cleanGuidedBlocksFuel n cs
      (c :: r, acc)

/-- Join extracted blocks with `'\n>\n'` (source: `extractedBlocks.join('\n>\n')`). -/
def joinBlocks : List (List Char) → List Char
  | [] => []
  | [x] => x
  | x :: y :: t => x ++ "\n>\n".data ++ joinBlocks (y :: t)

/-- Source: `extractAndRelocateAlertBlocks` — pull alert/note/help callouts
out of guided-hint blocks and append them (joined by blank blockquote
lines, preceded by a blank line) after every advanced-hint block. -/
def extractAndRelocateAlertBlocks (content : List Char) : List Char :=
  let (modified, extracted) := cleanGuidedBlocksFuel content.length content
  if extracted.isEmpty then modified
  else
    replaceBlocks advancedHeader
      (fun adv => adv ++ "\n\n".data ++ joinBlocks extracted) modified

/-- Match step for `/\n\n\n+(\[[\+\!])/g` → `'\n\n$1'`. -/
def alertBeforeStep (l : List Char) : Option (List Char × List Char) :=
  match l with
  | '\n' :: _ =>
    let run := l.takeWhile (· = '\n')
    match l.dropWhile (· = '\n') with
    | '[' :: c :: rest =>
      if 3 ≤ run.length ∧ (c = '+' ∨ c = '!') then
        some ("\n\n[".data ++ [c], rest)
      else none
    | _ => none
  | _ => none

/-- Match step for `/(\])\n\n\n+/g` → `'$1\n\n'`. -/
def alertAfterStep (l : List Char) : Option (List Char × List Char) :=
  match l with
  | ']' :: t =>
    let run := t.takeWhile (· = '\n')
    if 3 ≤ run.length then some ("]\n\n".data, t.dropWhile (· = '\n'))
    else none
  | _ => none

/-- Source: `normalizeAlertBlocks` — cap blank lines adjacent to a bracketed
callout tag at one (at most two consecutive newlines). -/
def normalizeAlertBlocks (content : List Char) : List Char :=
  runScan alertAfterStep (runScan alertBeforeStep content)

/-- Source: `OutputNormalizer.normalize(content, provider)` — the six common
repair passes, in source order. -/
def normalizeL (content : List Char) : List Char :=
  let c1 := replaceLit "\r\n".data "\n".data content
  let c2 := joinNl ((splitNl c1).map trimRightWs)
  let c3 := fixDoubleGreaterThan c2
  let c4 := fixGuidedHintSpacing c3
  let c5 := extractAndRelocateAlertBlocks c4
  normalizeAlertBlocks c5

/-- Function `normalize` at `String` level (the `provider` argument is unused by the
source's common passes and omitted here). -/
def normalize (content : String) : String := ⟨normalizeL content.data⟩

/-- Source: `normalizeOpenAI` — the common passes only (the OpenAI-specific
section of the source is an empty placeholder). -/
def normalizeOpenAI (content : String) : String := normalize content

/-- Source: `normalizeOllama` — the common passes only (the Ollama-specific
section of the source is an empty placeholder). -/
def normalizeOllama (content : String) : String := normalize content

/-- Shortest prefix of `l` before a `"\n\n"` boundary (the `(?=\n\n|$)`
lookahead of the overview regex): returns (prefix, rest-from-boundary). -/
def takeUntilDoubleNl : List Char → List Char × List Char
  | [] => ([], [])
  | '\n' :: '\n' :: t => ([], '\n' :: '\n' :: t)
  | c :: cs =>
    let (pre, rest) := takeUntilDoubleNl cs
    (c :: pre, rest)

/-- Match step for `/\s+/g` → `' '` (collapse whitespace runs). -/
def wsRunStep (l : List Char) : Option (List Char × List Char) :=
  match l with
  | c :: _ =>
    if c.isWhitespace then some ([' '], l.dropWhile Char.isWhitespace)
    else none
  | _ => none

/-- Source: `fixOverviewFormatting` — join the first `>[overview]:` field
onto a single line: drop `\n>` continuations, collapse whitespace runs,
trim, and re-emit as `>[overview]: value`. -/
def fixOverviewFormatting (content : List Char) : List Char :=
  match splitFirst ">[overview]:".data content with
  | none => content
  | some (before, after) =>
    let (ov, rest) := takeUntilDoubleNl after
    let s1 := replaceLit "\n>".data " ".data ov
    let s2 := runScan wsRunStep s1
    before ++ ">[overview]: ".data ++ trimWs s2 ++ rest

/-- Match step for `/>\n>\n>\n(>[-\[])/g` → `'>\n$1'`. -/
def geminiTripleStep : List Char → Option (List Char × List Char)
  | '>' :: '\n' :: '>' :: '\n' :: '>' :: '\n' :: '>' :: c :: rest =>
    if c = '-' ∨ c = '[' then some (">\n>".data ++ [c], rest) else none
  | _ => none

/-- Match step for `/>\n(>[-\[])/g` → `'>\n>\n$1'`. -/
def geminiExpandStep : List Char → Option (List Char × List Char)
  | '>' :: '\n' :: '>' :: c :: rest =>
    if c = '-' ∨ c = '[' then some (">\n>\n>".data ++ [c], rest) else none
  | _ => none

/-- Source: `fixGeminiGuidedHintSpacing` — inside each guided block, collapse
triple blank blockquote lines before a bullet/tag, then re-insert exactly
one blank blockquote line before each bullet/tag. -/
def fixGeminiGuidedHintSpacing (content : List Char) : List Char :=
  replaceBlocks guidedHeader
    (fun block => runScan geminiExpandStep (runScan geminiTripleStep block))
    content

/-- Unit pattern `>\s*\n` as used in `fixDoubleBlankLinesBeforeBullets`: a `>` followed by
a whitespace run that contains a newline; consumes through the last newline
of the run (greedy `\s*` backtracking to the final `\n`; earlier newline
choices always leave a leading whitespace character, on which the
continuation of every pattern using this unit fails, so the greedy choice
is the only viable one). -/
def gtWsNl : List Char → Option (List Char)
  | '>' :: t =>
    let w := t.takeWhile Char.isWhitespace
    let r := t.dropWhile Char.isWhitespace
    if w.contains '\n' then
      some ((w.reverse.takeWhile (· ≠ '\n')).reverse ++ r)
    else none
  | _ => none

/-- Match step for `/^>\s*\n>\s*\n(>-)/gm` → `'>\n$1'` (and its `>\[` twin,
selected by `c2`). Reports that the position after the match is not at a
line start (the match ends in the captured bullet). -/
def dblBlankStep (c2 : Char) (l : List Char) :
    Option (List Char × List Char × Bool) :=
  match gtWsNl l with
  | some r1 =>
    match gtWsNl r1 with
    | some ('>' :: c :: rest) =>
      if c = c2 then some (">\n>".data ++ [c], rest, false) else none
    | _ => none
  | none => none

/-- Pattern `(>\s*\n)+` (greedy, at least one unit); returns rest after all units,
or `none` if no unit matches. -/
def gtWsNlMany : Nat → List Char → Option (List Char)
  | 0, _ => none
  | n + 1, l =>
    match gtWsNl l with
    | some r =>
      match gtWsNlMany n r with
      | some r2 => some r2
      | none => some r
    | none => none

/-- Match step for `/^(>\s*\n)+(?=>[-\[])/gm` → `'>\n'`: one or more blank
blockquote lines followed (lookahead, not consumed) by `>-` or `>[`.
Dropping trailing units can never satisfy the lookahead (the dropped unit
starts `>` + whitespace), so the greedy repetition is the only viable
parse. Ends at a line start. -/
def aggressiveStep (l : List Char) : Option (List Char × List Char × Bool) :=
  match gtWsNlMany l.length l with
  | some r =>
    match r with
    | '>' :: c :: _ =>
      if c = '-' ∨ c = '[' then some (">\n".data, r, true) else none
    | _ => none
  | none => none

/-- Source: `fixDoubleBlankLinesBeforeBullets` — normalize line endings, then
three passes of the three multiline collapse regexes. -/
def fixDoubleBlankLinesBeforeBullets (content : List Char) : List Char :=
  let start := replaceLit "\r\n".data "\n".data content
  let pass := fun l =>
    runScanM aggressiveStep
      (runScanM (dblBlankStep '[') (runScanM (dblBlankStep '-') l))
  pass (pass (pass start))

/-- Source: `normalizeGemini` — common passes, then overview joining, the
Gemini guided-hint spacing pass, and the final double-blank-line fix. -/
def normalizeGemini (content : String) : String :=
  let n1 := normalizeL content.data
  let n2 := fixOverviewFormatting n1
  let n3 := fixGeminiGuidedHintSpacing n2
  ⟨fixDoubleBlankLinesBeforeBullets n3⟩

/-- A payload character that cannot interfere with any of the relocation
pass's delimiters: not a newline (callout lines are single lines), not `>`
(cannot start a blockquote line or a callout match), not `:` (cannot start
or extend a block marker), and not whitespace (stable under trimming). -/
def plainChar (c : Char) : Bool :=
  !(c = '\n') && !(c = '>') && !(c = ':') && !c.isWhitespace

/-- A payload made of plain characters only. -/
def Plain (l : List Char) : Prop := ∀ c ∈ l, plainChar c = true

instance (l : List Char) : Decidable (Plain l) :=
  List.decidableBAll (fun c => plainChar c = true) l

/-- An alert callout line `>[+alert] <payload>`. -/
def alertLine (a : List Char) : List Char := ">[+alert] ".data ++ a

/-- A note callout line `>[!note] <payload>`. -/
def noteLine (n : List Char) : List Char := ">[!note] ".data ++ n

/-- A guided-hint block with the given interior. -/
def guidedDoc (inner : List Char) : List Char :=
  guidedHeader ++ inner ++ blockClose

/-- An advanced-hint block containing one content line. -/
def advancedDoc (link : List Char) : List Char :=
  advancedHeader ++ '\n' :: (link ++ '\n' :: blockClose)

/-- A document whose guided-hint block holds a note line and then an alert
line, followed by one advanced-hint block. -/
def docNoteThenAlert (n a link : List Char) : List Char :=
  guidedDoc ('\n' :: (noteLine n ++ '\n' :: (alertLine a ++ ['\n']))) ++
    '\n' :: advancedDoc link

/-- A document whose guided-hint block holds an alert line immediately
followed by a note line, followed by one advanced-hint block. -/
def docAlertThenNote (a n link : List Char) : List Char :=
  guidedDoc ('\n' :: (alertLine a ++ '\n' :: (noteLine n ++ ['\n']))) ++
    '\n' :: advancedDoc link

end OutputNormalizer

namespace Providers

open StrUtil

/-- Model of a JavaScript error value as observed by the adapters' catch
blocks: an optional numeric `status` (set on OpenAI SDK errors) and a
`message` string. -/
structure JsErr where
  status : Option Nat
  message : String
deriving DecidableEq, Repr

/-- The cancellation error raised by every adapter:
`new Error("Operation stopped by user.")`. -/
def cancelMsg : String := "Operation stopped by user."

/-- The cancellation error as a `JsErr`. -/
def cancelErr : JsErr := ⟨none, cancelMsg⟩

/-- Every adapter uses `const maxRetries = 6`. -/
def maxRetries : Nat := 6

/-- Outcome of one `try` block body: either a successful (already
normalized) text, or a thrown error (a transport failure or the
cancellation error raised at a mid-stream check). -/
inductive TryOut
  | ok (text : String)
  | thrown (e : JsErr)
deriving DecidableEq, Repr

/-- Decision taken by an adapter's `catch` block: rethrow a synthesized
error message, or sleep for `delay` milliseconds and run the next attempt. -/
inductive CatchStep
  | halt (msg : String)
  | retry (delay : Nat)
deriving DecidableEq, Repr

instance {α β : Type} [DecidableEq α] [DecidableEq β] :
    DecidableEq (Except α β) := fun a b =>
  match a, b with
  | .ok x, .ok y =>
    if h : x = y then isTrue (by rw [h]) else isFalse (by simp [h])
  | .error x, .error y =>
    if h : x = y then isTrue (by rw [h]) else isFalse (by simp [h])
  | .ok _, .error _ => isFalse (by simp)
  | .error _, .ok _ => isFalse (by simp)

/-- Observable result of one logical adapter call: the resolved text or the
rejection message, the number of transport invocations, and the list of
backoff sleeps (in milliseconds, in order). -/
structure RunResult where
  result : Except String String
  calls : Nat
  sleeps : List Nat
deriving DecidableEq, Repr

/-- The retry loop skeleton shared by all nine adapter operations
(`for (let attempt = 0; attempt <= maxRetries; attempt++) try ... catch ...`).

The cancellation token is a time-indexed boolean (`token i` is the value
seen by the i-th cooperative read); `tryFn attempt r` runs the try-block
body from read index `r`, returning its outcome, the next read index and
the number of transport invocations it made (0 or 1); `catchFn e now a`
is the adapter's catch block at attempt `a` for error `e` when the token
currently reads `now`.  The fuel starts at `maxRetries + 1`; the fuel-0
case corresponds to falling off the loop (unreachable in practice, like
the final `throw` after the loop in the source). -/
def runLoop (tryFn : Nat → Nat → TryOut × Nat × Nat)
    (catchFn : JsErr → Bool → Nat → CatchStep)
    (token : Nat → Bool) (exhaustMsg : String) :
    Nat → Nat → Nat → Nat → List Nat → RunResult
  | 0, _, _, calls, sleeps => ⟨.error exhaustMsg, calls, sleeps⟩
  | fuel + 1, attempt, r, calls, sleeps =>
    let step : TryOut × Nat × Nat :=
      if token r then (.thrown cancelErr, r + 1, 0) else tryFn attempt (r + 1)
    match step with
    | (.ok t, _, c1) => ⟨.ok t, calls + c1, sleeps⟩
    | (.thrown e, r1, c1) =>
      match catchFn e (token r1) attempt with
      | .halt msg => ⟨.error msg, calls + c1, sleeps⟩
      | .retry d =>
        runLoop tryFn catchFn token exhaustMsg fuel (attempt + 1) (r1 + 1)
          (calls + c1) (sleeps ++ [d])

/-- Run a full logical call: fuel `maxRetries + 1`, attempt 0, read 0. -/
def runCall (tryFn : Nat → Nat → TryOut × Nat × Nat)
    (catchFn : JsErr → Bool → Nat → CatchStep)
    (token : Nat → Bool) (exhaustMsg : String) : RunResult :=
  runLoop tryFn catchFn token exhaustMsg (maxRetries + 1) 0 0 0 []

/-- Try-block body of a non-streaming operation: invoke the transport once;
on success extract and normalize the response. -/
def nonStreamTry {α : Type} (transport : Nat → Except JsErr α)
    (render : α → String) (attempt r : Nat) : TryOut × Nat × Nat :=
  match transport attempt with
  | .ok a => (.ok (render a), r, 1)
  | .error e => (.thrown e, r, 1)

/-- Chunk loop of a streaming operation: before each received chunk the
token is read; a set token raises the cancellation error (caught by the
enclosing catch). Empty chunks are skipped (`if (chunkText)`). Returns
`none` when cancelled, otherwise the accumulated text, plus the next read
index. -/
def streamConsume (token : Nat → Bool) :
    List String → String → Nat → Option String × Nat
  | [], acc, r => (some acc, r)
  | c :: cs, acc, r =>
    if token r then (none, r + 1)
    else streamConsume token cs (if c = "" then acc else acc ++ c) (r + 1)

/-- Try-block body of a streaming operation: invoke the transport once; on
success consume the chunk stream with cooperative cancellation checks,
then normalize the accumulated text. -/
def streamTry (transport : Nat → Except JsErr (List String))
    (norm : String → String) (token : Nat → Bool) (attempt r : Nat) :
    TryOut × Nat × Nat :=
  match transport attempt with
  | .ok chunks =>
    match streamConsume token chunks "" r with
    | (some full, r2) => (.ok (norm full), r2, 1)
    | (none, r2) => (.thrown cancelErr, r2, 1)
  | .error e => (.thrown e, r, 1)

/-- JS `x || 'Unknown error'` on an error message. -/
def msgOrUnknown (m : String) : String :=
  if m = "" then "Unknown error" else m

/-- Catch block of the three `OpenAIService` operations (`opName` selects
the operation-specific wording of the generic final message). -/
def openaiCatch (jitter : Nat → Nat) (finalPrefix : String)
    (e : JsErr) (now : Bool) (attempt : Nat) : CatchStep :=
  if now then .halt cancelMsg
  else if e.status = some 401 ∨ containsSub (toLowerStr e.message) "api key" then
    .halt "Your OpenAI API key is invalid or has expired. Please check your API key settings."
  else if attempt < maxRetries then
    .retry (if e.status = some 429 then 15000 * 2 ^ attempt + jitter attempt
            else 2000 * 2 ^ attempt)
  else if e.status = some 429 then
    .halt "You have exceeded your OpenAI API quota. Please check your plan and billing details."
  else .halt (finalPrefix ++ msgOrUnknown e.message)

/-- Catch block of the three `OllamaService` operations. -/
def ollamaCatch (baseUrl : String) (finalPrefix : String)
    (e : JsErr) (now : Bool) (attempt : Nat) : CatchStep :=
  if now then .halt cancelMsg
  else if containsSub e.message "fetch" ∨ containsSub e.message "Network" then
    .halt ("Cannot connect to Ollama at " ++ baseUrl ++
      ". Please ensure Ollama is running locally.")
  else if attempt < maxRetries then .retry (2000 * 2 ^ attempt)
  else .halt (finalPrefix ++ msgOrUnknown e.message)

/-- Result of `parseGeminiError`: a numeric code, a message and a status
string extracted from the raw error. -/
structure GemParsed where
  code : Nat
  message : String
  status : String
deriving DecidableEq, Repr

/-- The non-JSON fallback branch of `parseGeminiError` (the `catch` arm of
its `try`): substring-match the raw message for rate-limit, overload or
unknown. The JSON branch is abstracted by the `parse` parameter of
`geminiCatch`; this function is its concrete value on non-JSON messages. -/
def parseGeminiErrorFallback (msg : String) : GemParsed :=
  if containsSub msg "429" ∨ containsSub msg "RESOURCE_EXHAUSTED" then
    ⟨429, "You have exceeded your API quota.", "RESOURCE_EXHAUSTED"⟩
  else if containsSub msg "503" ∨ containsSub msg "UNAVAILABLE" ∨
      containsSub msg "overloaded" then
    ⟨503, "The AI model is currently overloaded.", "UNAVAILABLE"⟩
  else ⟨0, msg, "UNKNOWN"⟩

/-- Catch block of the three `GeminiService` operations, parameterized by
the error parser (`parseGeminiError` in the source; its JSON branch
depends on `JSON.parse`, so the loop is stated for an arbitrary parser and
`parseGeminiErrorFallback` gives its concrete non-JSON behaviour).
`genericFinal` is the operation-specific final message. -/
def geminiCatch (parse : String → GemParsed) (jitter : Nat → Nat)
    (genericFinal : String) (e : JsErr) (now : Bool) (attempt : Nat) :
    CatchStep :=
  let p := parse e.message
  if containsSub p.message cancelMsg ∨ now then .halt cancelMsg
  else if p.code = 400 ∧ (p.status = "INVALID_ARGUMENT" ∨
      containsSub (toLowerStr p.message) "api key") then
    .halt "Your API key is invalid or has expired. Please check your API key settings."
  else if attempt < maxRetries then
    .retry (if p.code = 429 ∨ p.code = 503 then
        15000 * 2 ^ attempt + jitter attempt
      else 2000 * 2 ^ attempt)
  else if p.code = 429 then
    .halt "You have exceeded your API quota. Please check your plan and billing details."
  else if p.code = 503 then
    .halt "The AI model is currently overloaded. Please wait a few moments and try again."
  else .halt genericFinal

end Providers

namespace Providers

open OutputNormalizer

/-- Model of `aiServiceTypes.AIConfig`. The provider tag is kept as a string
to model the factory's `default` branch. -/
structure AIConfig where
  provider : String
  apiKey : String
  model : String
  ollamaBaseUrl : Option String
deriving DecidableEq, Repr

/-- The three concrete services the factory can construct. -/
inductive ServiceKind
  | gemini
  | openai
  | ollama
deriving DecidableEq, Repr

/-- Source: `createAIService(config)` — a switch on `config.provider`,
throwing on an unrecognized tag. No field of the config other than the
provider tag is inspected (in particular the apiKey is not validated). -/
def createAIService (config : AIConfig) : Except String ServiceKind :=
  if config.provider = "gemini" then .ok .gemini
  else if config.provider = "openai" then .ok .openai
  else if config.provider = "ollama" then .ok .ollama
  else .error ("Unknown AI provider: " ++ config.provider)

/-- Source: `OllamaService` constructor —
`this.baseUrl = config.ollamaBaseUrl || 'http://localhost:11434'`
(JS `||`: absent and empty string both fall back to the default). -/
def ollamaBase (config : AIConfig) : String :=
  match config.ollamaBaseUrl with
  | none => "http://localhost:11434"
  | some s => if s = "" then "http://localhost:11434" else s

/-- One chat message of an OpenAI chat-completions request. -/
structure ChatMessage where
  role : String
  content : String
deriving DecidableEq, Repr

/-- Source: the `messages` array built by `OpenAIService.processText`
(lines 53-58): a single `user` message combining the agent prompt and the
content. -/
def openaiProcessTextMessages (agentPrompt content : String) :
    List ChatMessage :=
  [⟨"user", agentPrompt ++ "\n\n---\n\n" ++ content⟩]

/-- Source: the `messages` array built by `OpenAIService.processTextStream`
(lines 120-125): identical single `user` message shape. -/
def openaiProcessTextStreamMessages (agentPrompt content : String) :
    List ChatMessage :=
  [⟨"user", agentPrompt ++ "\n\n---\n\n" ++ content⟩]

/-- Response message of a non-streaming chat completion
(`response.choices[i].message`, with nullable `content`). -/
structure ChatRespMessage where
  content : Option String
deriving DecidableEq, Repr

/-- One choice of a chat-completion response (nullable `message`). -/
structure ChatChoice where
  message : Option ChatRespMessage
deriving DecidableEq, Repr

/-- A non-streaming chat-completion response. -/
structure ChatResponse where
  choices : List ChatChoice
deriving DecidableEq, Repr

/-- Source: `response.choices[0]?.message?.content || ''`. -/
def choiceContent (r : ChatResponse) : String :=
  (((r.choices.head?).bind (fun c => c.message)).bind
    (fun m => m.content)).getD ""

/-- Model of the Ollama non-streaming `/api/chat` response
(`data.message.content`). -/
structure OllamaResponse where
  content : String
deriving DecidableEq, Repr

/-- Source: `OpenAIService.processText` — non-streaming chat completion with
retry; resolves with `normalizeOpenAI(choices[0]?.message?.content || '')`. -/
def openaiProcessText (transport : Nat → Except JsErr ChatResponse)
    (token : Nat → Bool) (jitter : Nat → Nat) : RunResult :=
  runCall (nonStreamTry transport (fun r => normalizeOpenAI (choiceContent r)))
    (openaiCatch jitter "Failed to process text with OpenAI API: ") token
    "Failed to process text with OpenAI API after 6 attempts."

/-- Source: `OpenAIService.processTextStream` — streaming chat completion
with retry; per-chunk cancellation checks; resolves with the normalized
accumulated text. -/
def openaiProcessTextStream (transport : Nat → Except JsErr (List String))
    (token : Nat → Bool) (jitter : Nat → Nat) : RunResult :=
  runCall (streamTry transport normalizeOpenAI token)
    (openaiCatch jitter "Failed to process text stream with OpenAI API: ") token
    "Failed to process text stream with OpenAI API after 6 attempts."

/-- Source: `OpenAIService.generateScriptStream` — multi-modal streaming
chat completion with retry. -/
def openaiGenerateScriptStream (transport : Nat → Except JsErr (List String))
    (token : Nat → Bool) (jitter : Nat → Nat) : RunResult :=
  runCall (streamTry transport normalizeOpenAI token)
    (openaiCatch jitter "Failed to process multi-modal stream with OpenAI API: ")
    token "Failed to process multi-modal stream with OpenAI API after 6 attempts."

/-- Source: `OllamaService.processText` — non-streaming `/api/chat` call with
retry; resolves with `normalizeOllama(data.message.content)`. -/
def ollamaProcessText (config : AIConfig)
    (transport : Nat → Except JsErr OllamaResponse)
    (token : Nat → Bool) : RunResult :=
  runCall (nonStreamTry transport (fun r => normalizeOllama r.content))
    (ollamaCatch (ollamaBase config) "Failed to process text with Ollama: ")
    token "Failed to process text with Ollama after 6 attempts."

/-- Source: `OllamaService.processTextStream` — streaming JSON-lines call
with retry; the transport yields the decoded per-line content fragments. -/
def ollamaProcessTextStream (config : AIConfig)
    (transport : Nat → Except JsErr (List String))
    (token : Nat → Bool) : RunResult :=
  runCall (streamTry transport normalizeOllama token)
    (ollamaCatch (ollamaBase config) "Failed to process text stream with Ollama: ")
    token "Failed to process text stream with Ollama after 6 attempts."

/-- Source: `OllamaService.generateScriptStream` — multi-modal streaming
JSON-lines call with retry. -/
def ollamaGenerateScriptStream (config : AIConfig)
    (transport : Nat → Except JsErr (List String))
    (token : Nat → Bool) : RunResult :=
  runCall (streamTry transport normalizeOllama token)
    (ollamaCatch (ollamaBase config)
      "Failed to process multi-modal stream with Ollama: ")
    token "Failed to process multi-modal stream with Ollama after 6 attempts."

/-- Source: `GeminiService.processText` — internally streaming call with
retry (the source iterates `generateContentStream` with per-chunk
cancellation checks even for the non-streaming operation); resolves with
`normalizeGemini(fullText)`. -/
def geminiProcessText (parse : String → GemParsed)
    (transport : Nat → Except JsErr (List String))
    (token : Nat → Bool) (jitter : Nat → Nat) : RunResult :=
  runCall (streamTry transport normalizeGemini token)
    (geminiCatch parse jitter
      "Failed to process text with Gemini API after multiple attempts. The service may be busy or unavailable.")
    token "Failed to process text with Gemini API after 6 attempts."

/-- Source: `GeminiService.processTextStream`. -/
def geminiProcessTextStream (parse : String → GemParsed)
    (transport : Nat → Except JsErr (List String))
    (token : Nat → Bool) (jitter : Nat → Nat) : RunResult :=
  runCall (streamTry transport normalizeGemini token)
    (geminiCatch parse jitter
      "Failed to process text stream with Gemini API after multiple attempts. The service may be busy or unavailable.")
    token "Failed to process text stream with Gemini API after 6 attempts."

/-- Source: `GeminiService.generateScriptStream`. -/
def geminiGenerateScriptStream (parse : String → GemParsed)
    (transport : Nat → Except JsErr (List String))
    (token : Nat → Bool) (jitter : Nat → Nat) : RunResult :=
  runCall (streamTry transport normalizeGemini token)
    (geminiCatch parse jitter
      "Failed to process multi-modal stream with Gemini API after multiple attempts. The service may be busy or unavailable.")
    token "Failed to process multi-modal stream with Gemini API after 6 attempts."

/-- Backoff delays `d s, d (s+1), ..., d (s+n-1)`. -/
def delaysFrom (d : Nat → Nat) : Nat → Nat → List Nat
  | _, 0 => []
  | s, n + 1 => d s :: delaysFrom d (s + 1) n

end Providers

namespace Providers

theorem delaysFrom_eq_map (d : Nat → Nat) :
    ∀ n s, delaysFrom d s n = (List.range n).map (fun i => d (s + i)) := by
  intro n
  induction n with
  | zero => intro s; simp [delaysFrom]
  | succ n ih =>
    intro s
    rw [List.range_succ_eq_map, List.map_cons, List.map_map]
    rw [delaysFrom, ih (s + 1)]
    have hfun : ((fun i => d (s + i)) ∘ Nat.succ) = fun i => d (s + 1 + i) := by
      funext i
      show d (s + (i + 1)) = d (s + 1 + i)
      exact congrArg d (by omega)
    rw [hfun]
    simp

/-- If every attempt's try body throws the same retryable error, the token
is never set, and the catch retries below `maxRetries` and halts at
`maxRetries`, the loop makes one transport call per remaining attempt,
sleeps the scheduled delays, and rejects with the final message. -/
theorem runLoop_const_fail (tryFn : Nat → Nat → TryOut × Nat × Nat)
    (catchFn : JsErr → Bool → Nat → CatchStep) (token : Nat → Bool)
    (exhaustMsg : String) (e : JsErr) (d : Nat → Nat) (m : String)
    (htry : ∀ a r, tryFn a r = (.thrown e, r, 1))
    (htok : ∀ i, token i = false)
    (hretry : ∀ a, a < maxRetries → catchFn e false a = .retry (d a))
    (hhalt : catchFn e false maxRetries = .halt m) :
    ∀ fuel attempt r calls sleeps, fuel + attempt = maxRetries + 1 →
      attempt ≤ maxRetries →
      runLoop tryFn catchFn token exhaustMsg fuel attempt r calls sleeps =
        ⟨.error m, calls + fuel, sleeps ++ delaysFrom d attempt (fuel - 1)⟩ := by
  intro fuel
  induction fuel with
  | zero => intro attempt r calls sleeps h1 h2; omega
  | succ fuel ih =>
    intro attempt r calls sleeps h1 h2
    rw [runLoop]
    simp only [htok, Bool.false_eq_true, if_false, htry]
    by_cases hlt : attempt < maxRetries
    · rw [hretry attempt hlt]
      show runLoop tryFn catchFn token exhaustMsg fuel (attempt + 1)
          (r + 1 + 1) (calls + 1) (sleeps ++ [d attempt]) = _
      rw [ih (attempt + 1) (r + 1 + 1) (calls + 1) (sleeps ++ [d attempt])
        (by omega) (by omega)]
      have hf : fuel + 1 - 1 = (fuel - 1) + 1 := by omega
      rw [hf, delaysFrom]
      simp only [RunResult.mk.injEq]
      exact ⟨by trivial, by omega, by simp⟩
    · have ha : attempt = maxRetries := by omega
      subst ha
      have hf : fuel = 0 := by omega
      subst hf
      rw [hhalt]
      show (⟨.error m, calls + 1, sleeps⟩ : RunResult) = _
      simp [delaysFrom]

/-- If the try body throws `e` at the current attempt, the token reads
false, and the catch halts at this attempt, the loop stops after exactly
one more transport call with no further sleep. -/
theorem runLoop_halt_now (tryFn : Nat → Nat → TryOut × Nat × Nat)
    (catchFn : JsErr → Bool → Nat → CatchStep) (token : Nat → Bool)
    (exhaustMsg : String) (e : JsErr) (m : String)
    (fuel attempt r calls : Nat) (sleeps : List Nat)
    (htry : tryFn attempt (r + 1) = (.thrown e, r + 1, 1))
    (htok0 : token r = false) (htok1 : token (r + 1) = false)
    (hhalt : catchFn e false attempt = .halt m) :
    runLoop tryFn catchFn token exhaustMsg (fuel + 1) attempt r calls sleeps =
      ⟨.error m, calls + 1, sleeps⟩ := by
  rw [runLoop]
  simp [htok0, htry, htok1, hhalt]

/-- If the token already reads true at the attempt's pre-call check (and
still at the catch check), and the catch halts with the cancellation
message on a set token, the loop stops with no transport call and no
sleep. -/
theorem runLoop_cancel_first (tryFn : Nat → Nat → TryOut × Nat × Nat)
    (catchFn : JsErr → Bool → Nat → CatchStep) (token : Nat → Bool)
    (exhaustMsg : String) (fuel attempt r calls : Nat) (sleeps : List Nat)
    (htok0 : token r = true) (htok1 : token (r + 1) = true)
    (hcancel : catchFn cancelErr true attempt = .halt cancelMsg) :
    runLoop tryFn catchFn token exhaustMsg (fuel + 1) attempt r calls sleeps =
      ⟨.error cancelMsg, calls, sleeps⟩ := by
  rw [runLoop]
  simp [htok0, htok1, hcancel]

/-- If the try body succeeds at the current attempt (token reading false at
the pre-call check), the loop resolves with that text after this one
transport call. -/
theorem runLoop_ok_now (tryFn : Nat → Nat → TryOut × Nat × Nat)
    (catchFn : JsErr → Bool → Nat → CatchStep) (token : Nat → Bool)
    (exhaustMsg : String) (t : String) (fuel attempt r rnext calls : Nat)
    (sleeps : List Nat)
    (htok0 : token r = false)
    (htry : tryFn attempt (r + 1) = (.ok t, rnext, 1)) :
    runLoop tryFn catchFn token exhaustMsg (fuel + 1) attempt r calls sleeps =
      ⟨.ok t, calls + 1, sleeps⟩ := by
  rw [runLoop]
  simp [htok0, htry]

/-- With the token first observed set at the catch check of attempt `a`
(reads are numbered two per attempt: pre-call then catch), every earlier
attempt fails with `e` and retries, and attempt `a`'s catch sees the set
token and halts with the cancellation message: `a + 1` transport calls,
`a` sleeps, immediate cancellation with no further sleep. -/
theorem runLoop_cancel_at (tryFn : Nat → Nat → TryOut × Nat × Nat)
    (catchFn : JsErr → Bool → Nat → CatchStep)
    (exhaustMsg : String) (e : JsErr) (d : Nat → Nat) (a : Nat)
    (ha : a ≤ maxRetries)
    (htry : ∀ j r, tryFn j r = (.thrown e, r, 1))
    (hretry : ∀ j, j < a → catchFn e false j = .retry (d j))
    (hcancel : catchFn e true a = .halt cancelMsg) :
    ∀ fuel attempt calls sleeps, fuel + attempt = maxRetries + 1 →
      attempt ≤ a →
      runLoop tryFn catchFn (fun i => decide (2 * a + 1 ≤ i)) exhaustMsg
          fuel attempt (2 * attempt) calls sleeps =
        ⟨.error cancelMsg, calls + (a - attempt) + 1,
          sleeps ++ delaysFrom d attempt (a - attempt)⟩ := by
  intro fuel
  induction fuel with
  | zero => intro attempt calls sleeps h1 h2; omega
  | succ fuel ih =>
    intro attempt calls sleeps h1 h2
    rw [runLoop]
    have hpre : decide (2 * a + 1 ≤ 2 * attempt) = false := by
      simp only [decide_eq_false_iff_not]
      omega
    simp only [hpre, Bool.false_eq_true, if_false, htry]
    by_cases heq : attempt = a
    · subst heq
      have hc : decide (2 * attempt + 1 ≤ 2 * attempt + 1) = true := by simp
      rw [hc, hcancel]
      show (⟨.error cancelMsg, calls + 1, sleeps⟩ : RunResult) = _
      simp [delaysFrom]
    · have hlt : attempt < a := by omega
      have hc : decide (2 * a + 1 ≤ 2 * attempt + 1) = false := by
        simp only [decide_eq_false_iff_not]
        omega
      rw [hc, hretry attempt hlt]
      show runLoop tryFn catchFn (fun i => decide (2 * a + 1 ≤ i)) exhaustMsg
          fuel (attempt + 1) (2 * attempt + 1 + 1) (calls + 1)
          (sleeps ++ [d attempt]) = _
      have h2a : 2 * attempt + 1 + 1 = 2 * (attempt + 1) := by omega
      rw [h2a, ih (attempt + 1) (calls + 1) (sleeps ++ [d attempt])
        (by omega) (by omega)]
      have hd : a - attempt = (a - (attempt + 1)) + 1 := by omega
      rw [hd, delaysFrom]
      simp only [RunResult.mk.injEq]
      exact ⟨by trivial, by omega, by simp⟩

end Providers

namespace Providers

open StrUtil

/-- Sanity: `delaysFrom` produces one delay per retried attempt. -/
theorem delaysFrom_length (d : Nat → Nat) :
    ∀ n s, (delaysFrom d s n).length = n := by
  intro n
  induction n with
  | zero => intro s; simp [delaysFrom]
  | succ n ih => intro s; simp [delaysFrom, ih]

/-- An OpenAI-style run whose try body always throws a non-auth error with
an unset token: 7 transport calls, full backoff schedule (inflated only
for status 429), operation-specific final message. -/
theorem openaiRun_const_fail (tryFn : Nat → Nat → TryOut × Nat × Nat)
    (fp exhaustMsg : String) (e : JsErr) (token : Nat → Bool)
    (jitter : Nat → Nat)
    (htry : ∀ a r, tryFn a r = (.thrown e, r, 1))
    (htok : ∀ i, token i = false)
    (hna : ¬(e.status = some 401 ∨ containsSub (toLowerStr e.message) "api key" = true)) :
    runCall tryFn (openaiCatch jitter fp) token exhaustMsg =
      ⟨.error (if e.status = some 429 then
          "You have exceeded your OpenAI API quota. Please check your plan and billing details."
        else fp ++ msgOrUnknown e.message),
       maxRetries + 1,
       delaysFrom (fun a => if e.status = some 429 then
          15000 * 2 ^ a + jitter a else 2000 * 2 ^ a) 0 maxRetries⟩ := by
  unfold runCall
  have hr := runLoop_const_fail tryFn (openaiCatch jitter fp) token exhaustMsg e
    (fun a => if e.status = some 429 then 15000 * 2 ^ a + jitter a
      else 2000 * 2 ^ a)
    (if e.status = some 429 then
        "You have exceeded your OpenAI API quota. Please check your plan and billing details."
      else fp ++ msgOrUnknown e.message)
    htry htok
    (by intro a ha; simp [openaiCatch, hna, ha])
    (by simp [openaiCatch, hna]; split <;> rfl)
    (maxRetries + 1) 0 0 0 [] (by omega) (by omega)
  simpa using hr

/-- An Ollama-style run whose try body always throws an error that is not a
connection error, with an unset token: 7 calls, base backoff schedule. -/
theorem ollamaRun_const_fail (tryFn : Nat → Nat → TryOut × Nat × Nat)
    (baseUrl fp exhaustMsg : String) (e : JsErr) (token : Nat → Bool)
    (htry : ∀ a r, tryFn a r = (.thrown e, r, 1))
    (htok : ∀ i, token i = false)
    (hnf : ¬(containsSub e.message "fetch" = true ∨
      containsSub e.message "Network" = true)) :
    runCall tryFn (ollamaCatch baseUrl fp) token exhaustMsg =
      ⟨.error (fp ++ msgOrUnknown e.message), maxRetries + 1,
       delaysFrom (fun a => 2000 * 2 ^ a) 0 maxRetries⟩ := by
  unfold runCall
  have hr := runLoop_const_fail tryFn (ollamaCatch baseUrl fp) token exhaustMsg e
    (fun a => 2000 * 2 ^ a) (fp ++ msgOrUnknown e.message)
    htry htok
    (by intro a ha; simp [ollamaCatch, hnf, ha])
    (by simp [ollamaCatch, hnf])
    (maxRetries + 1) 0 0 0 [] (by omega) (by omega)
  simpa using hr

/-- A Gemini-style run whose try body always throws an error whose parse is
neither the cancellation sentinel nor the invalid-key shape, with an unset
token: 7 calls, schedule inflated exactly for parsed code 429 or 503,
final message selected by the parsed code. -/
theorem geminiRun_const_fail (tryFn : Nat → Nat → TryOut × Nat × Nat)
    (parse : String → GemParsed) (genericFinal exhaustMsg : String)
    (e : JsErr) (token : Nat → Bool) (jitter : Nat → Nat)
    (htry : ∀ a r, tryFn a r = (.thrown e, r, 1))
    (htok : ∀ i, token i = false)
    (hnc : ¬(containsSub (parse e.message).message cancelMsg = true))
    (hna : ¬((parse e.message).code = 400 ∧
      ((parse e.message).status = "INVALID_ARGUMENT" ∨
        containsSub (toLowerStr (parse e.message).message) "api key" = true))) :
    runCall tryFn (geminiCatch parse jitter genericFinal) token exhaustMsg =
      ⟨.error (if (parse e.message).code = 429 then
          "You have exceeded your API quota. Please check your plan and billing details."
        else if (parse e.message).code = 503 then
          "The AI model is currently overloaded. Please wait a few moments and try again."
        else genericFinal),
       maxRetries + 1,
       delaysFrom (fun a => if (parse e.message).code = 429 ∨
            (parse e.message).code = 503 then
          15000 * 2 ^ a + jitter a else 2000 * 2 ^ a) 0 maxRetries⟩ := by
  unfold runCall
  have hr := runLoop_const_fail tryFn (geminiCatch parse jitter genericFinal)
    token exhaustMsg e
    (fun a => if (parse e.message).code = 429 ∨ (parse e.message).code = 503 then
      15000 * 2 ^ a + jitter a else 2000 * 2 ^ a)
    (if (parse e.message).code = 429 then
        "You have exceeded your API quota. Please check your plan and billing details."
      else if (parse e.message).code = 503 then
        "The AI model is currently overloaded. Please wait a few moments and try again."
      else genericFinal)
    htry htok
    (by intro a ha; simp [geminiCatch, hnc, hna, ha])
    (by simp [geminiCatch, hnc, hna]; split <;> try rfl
        split <;> rfl)
    (maxRetries + 1) 0 0 0 [] (by omega) (by omega)
  simpa using hr

/-- An OpenAI-style run whose first try throws an error matching the
invalid-API-key test: rejects with the auth message after exactly one
transport call, no sleeps (no retry). -/
theorem openaiRun_auth_halt (tryFn : Nat → Nat → TryOut × Nat × Nat)
    (fp exhaustMsg : String) (e : JsErr) (token : Nat → Bool)
    (jitter : Nat → Nat)
    (htry : tryFn 0 1 = (.thrown e, 1, 1))
    (htok0 : token 0 = false) (htok1 : token 1 = false)
    (hauth : e.status = some 401 ∨ containsSub (toLowerStr e.message) "api key" = true) :
    runCall tryFn (openaiCatch jitter fp) token exhaustMsg =
      ⟨.error "Your OpenAI API key is invalid or has expired. Please check your API key settings.",
       1, []⟩ := by
  unfold runCall
  have hr := runLoop_halt_now tryFn (openaiCatch jitter fp) token exhaustMsg e
    "Your OpenAI API key is invalid or has expired. Please check your API key settings."
    maxRetries 0 0 0 [] htry htok0 htok1
    (by simp [openaiCatch, hauth])
  simpa using hr

/-- A Gemini-style run whose first try throws an error parsing to the
invalid-key shape (and not the cancellation sentinel): rejects with the
auth message after exactly one transport call, no retry. -/
theorem geminiRun_auth_halt (tryFn : Nat → Nat → TryOut × Nat × Nat)
    (parse : String → GemParsed) (genericFinal exhaustMsg : String)
    (e : JsErr) (token : Nat → Bool) (jitter : Nat → Nat)
    (htry : tryFn 0 1 = (.thrown e, 1, 1))
    (htok0 : token 0 = false) (htok1 : token 1 = false)
    (hnc : ¬(containsSub (parse e.message).message cancelMsg = true))
    (hauth : (parse e.message).code = 400 ∧
      ((parse e.message).status = "INVALID_ARGUMENT" ∨
        containsSub (toLowerStr (parse e.message).message) "api key" = true)) :
    runCall tryFn (geminiCatch parse jitter genericFinal) token exhaustMsg =
      ⟨.error "Your API key is invalid or has expired. Please check your API key settings.",
       1, []⟩ := by
  unfold runCall
  have hr := runLoop_halt_now tryFn (geminiCatch parse jitter genericFinal)
    token exhaustMsg e
    "Your API key is invalid or has expired. Please check your API key settings."
    maxRetries 0 0 0 [] htry htok0 htok1
    (by simp [geminiCatch, hnc, hauth])
  simpa using hr

/-- An Ollama-style run whose first try throws a connection error (message
containing `fetch` or `Network`): rejects immediately with the
cannot-connect message, exactly one transport call, no retry. -/
theorem ollamaRun_fetch_halt (tryFn : Nat → Nat → TryOut × Nat × Nat)
    (baseUrl fp exhaustMsg : String) (e : JsErr) (token : Nat → Bool)
    (htry : tryFn 0 1 = (.thrown e, 1, 1))
    (htok0 : token 0 = false) (htok1 : token 1 = false)
    (hf : containsSub e.message "fetch" = true ∨
      containsSub e.message "Network" = true) :
    runCall tryFn (ollamaCatch baseUrl fp) token exhaustMsg =
      ⟨.error ("Cannot connect to Ollama at " ++ baseUrl ++
        ". Please ensure Ollama is running locally."), 1, []⟩ := by
  unfold runCall
  have hr := runLoop_halt_now tryFn (ollamaCatch baseUrl fp) token exhaustMsg e
    ("Cannot connect to Ollama at " ++ baseUrl ++
      ". Please ensure Ollama is running locally.")
    maxRetries 0 0 0 [] htry htok0 htok1
    (by simp [ollamaCatch, hf])
  simpa using hr

end Providers

open StrUtil OutputNormalizer Providers

theorem startsWithL_self : ∀ p t : List Char, startsWithL p (p ++ t) = true := by
  intro p
  induction p with
  | nil => intro t; rfl
  | cons c cs ih => intro t; simp [startsWithL, ih]

theorem containsSubL_nil : ∀ l : List Char, containsSubL [] l = true := by
  intro l
  cases l <;> simp [containsSubL, startsWithL]

theorem containsSubL_self_append :
    ∀ p t : List Char, containsSubL p (p ++ t) = true := by
  intro p t
  cases p with
  | nil => exact containsSubL_nil t
  | cons c cs =>
    have h := startsWithL_self (c :: cs) t
    simp only [List.cons_append] at h
    simp [containsSubL, h]

theorem containsSubL_infix :
    ∀ pre p t : List Char, containsSubL p (pre ++ (p ++ t)) = true := by
  intro pre
  induction pre with
  | nil => intro p t; simpa using containsSubL_self_append p t
  | cons c cs ih =>
    intro p t
    cases p with
    | nil => exact containsSubL_nil _
    | cons x xs =>
      have h := ih (x :: xs) t
      simp only [List.cons_append] at h
      simp [containsSubL, h]

theorem containsSub_middle (a b c : String) :
    containsSub (a ++ b ++ c) b = true := by
  have h : (a ++ b ++ c).data = a.data ++ (b.data ++ c.data) := by
    simp [String.data_append]
  rw [containsSub, h]
  exact containsSubL_infix a.data b.data c.data

/-- C6 (code_bug): the spec requires the normalization pipeline to be
idempotent, but `normalize` is not: inside a guided-hint block, a run of
four blank blockquote lines is reduced to three by the first application
(only one `>\n>\n>\n` cleanup replacement fires in the callout-relocation
pass) and to two by a second application, so
`normalize (normalize T)` differs from `normalize T` on this input. -/
theorem C6_normalize_not_idempotent :
    normalizeOllama ":::ShowGuided(ShowGuided=Yes)\n>\n>\n>\n>\n:::" =
      ":::ShowGuided(ShowGuided=Yes)\n>\n>\n>\n:::" ∧
    normalizeOllama ":::ShowGuided(ShowGuided=Yes)\n>\n>\n>\n:::" =
      ":::ShowGuided(ShowGuided=Yes)\n>\n>\n:::" ∧
    normalizeOllama
        (normalizeOllama ":::ShowGuided(ShowGuided=Yes)\n>\n>\n>\n>\n:::") ≠
      normalizeOllama ":::ShowGuided(ShowGuided=Yes)\n>\n>\n>\n>\n:::" := by
  refine ⟨by decide, by decide, by decide⟩

/-- C7 (counterexample): in a document whose guided-hint block contains a
note callout before an alert callout, the normalized output emits the
extracted callouts grouped by tag type (alert first), not in original
encounter order, and the first relocated callout is preceded by a plain
blank line rather than a blank blockquote line. -/
theorem C7_relocation_counterexample :
    containsSub
        (normalizeOllama
          ":::ShowGuided(ShowGuided=Yes)\n>[!note] N\n>[+alert] A\n:::\n:::ShowAdvanced(ShowAdvanced=Yes)\nlink\n:::")
        ">[+alert] A\n>\n>[!note] N" = true ∧
    containsSub
        (normalizeOllama
          ":::ShowGuided(ShowGuided=Yes)\n>[!note] N\n>[+alert] A\n:::\n:::ShowAdvanced(ShowAdvanced=Yes)\nlink\n:::")
        ">[!note] N\n>\n>[+alert] A" = false ∧
    containsSub
        (normalizeOllama
          ":::ShowGuided(ShowGuided=Yes)\n>[!note] N\n>[+alert] A\n:::\n:::ShowAdvanced(ShowAdvanced=Yes)\nlink\n:::")
        ">\n>[+alert] A" = false := by
  refine ⟨by decide, by decide, by decide⟩

/-- C9 (counterexample): `OpenAIService.processText` builds a single `user`
chat message combining the agent prompt and the content, not two separate
system and user messages. -/
theorem C9_single_message_counterexample :
    openaiProcessTextMessages "p" "c" =
      [⟨"user", "p\n\n---\n\nc"⟩] ∧
    (openaiProcessTextMessages "p" "c").length ≠ 2 ∧
    (openaiProcessTextMessages "p" "c").map (fun msg => msg.role) = ["user"] := by
  refine ⟨by decide, by decide, by decide⟩

/-- C9 (amended): for every prompt and content, both `processText` and
`processTextStream` of the chat-completions adapter send exactly one chat
message, of role `user`, whose content is the agent prompt and the content
joined by a blank-line separator; no system message is sent. -/
theorem C9_single_user_message (agentPrompt content : String) :
    openaiProcessTextMessages agentPrompt content =
      [⟨"user", agentPrompt ++ "\n\n---\n\n" ++ content⟩] ∧
    openaiProcessTextStreamMessages agentPrompt content =
      [⟨"user", agentPrompt ++ "\n\n---\n\n" ++ content⟩] :=
  ⟨rfl, rfl⟩

/-- C10 (confirmed): when the non-streaming chat-completion response has no
message content (empty choices array or missing/null content),
`OpenAIService.processText` resolves successfully with the normalization
of the empty string (which is the empty string), after exactly one
transport call. -/
theorem C10_empty_content_resolves
    (transport : Nat → Except JsErr ChatResponse) (token : Nat → Bool)
    (jitter : Nat → Nat) (resp : ChatResponse)
    (htok : token 0 = false)
    (htr : transport 0 = .ok resp)
    (hempty : ((resp.choices.head?).bind (fun c => c.message)).bind
      (fun m => m.content) = none) :
    openaiProcessText transport token jitter =
      ⟨.ok (normalizeOpenAI ""), 1, []⟩ ∧
    normalizeOpenAI "" = "" := by
  constructor
  · unfold openaiProcessText runCall
    have hcc : choiceContent resp = "" := by
      unfold choiceContent
      rw [hempty]
      rfl
    have htry : nonStreamTry transport
        (fun r => normalizeOpenAI (choiceContent r)) 0 1 =
        (.ok (normalizeOpenAI ""), 1, 1) := by
      simp [nonStreamTry, htr, hcc]
    have h := runLoop_ok_now (nonStreamTry transport
        (fun r => normalizeOpenAI (choiceContent r)))
      (openaiCatch jitter "Failed to process text with OpenAI API: ") token
      "Failed to process text with OpenAI API after 6 attempts."
      (normalizeOpenAI "") maxRetries 0 0 1 0 [] htok htry
    simpa using h
  · decide

/-- C10 witness: a concrete run with an empty choices array resolves with
the empty string after one call. -/
theorem C10_empty_content_resolves_witness :
    openaiProcessText (fun _ => .ok ⟨[]⟩) (fun _ => false) (fun _ => 0) =
      ⟨.ok (normalizeOpenAI ""), 1, []⟩ ∧
    normalizeOpenAI "" = "" :=
  C10_empty_content_resolves (fun _ => .ok ⟨[]⟩) (fun _ => false) (fun _ => 0)
    ⟨[]⟩ rfl rfl rfl

/-- C8 (counterexample): the factory accepts a cloud config with an empty
API key without any authorization error, and an adapter operation under
such a config still issues its transport request (one call is made) — the
empty key is not checked before the call. -/
theorem C8_no_empty_key_check_counterexample :
    createAIService ⟨"openai", "", "gpt-4o", none⟩ = .ok .openai ∧
    createAIService ⟨"gemini", "", "gemini-2.0-flash-exp", none⟩ = .ok .gemini ∧
    (openaiProcessText (fun _ => .ok ⟨[]⟩) (fun _ => false) (fun _ => 0)).calls
      = 1 := by
  refine ⟨by decide, by decide, by decide⟩

/-- C8 (amended): neither the factory nor the adapter constructors validate
the API key — a cloud config with any key (including the empty string) is
accepted and the transport request is issued; an Unauthorized (401)
rejection from the backend is then surfaced as the authorization error
after exactly one call, with no retry. -/
theorem C8_no_fail_fast_on_empty_key :
    (∀ key model : String,
      createAIService ⟨"openai", key, model, none⟩ = .ok .openai) ∧
    (∀ key model : String,
      createAIService ⟨"gemini", key, model, none⟩ = .ok .gemini) ∧
    (∀ (transport : Nat → Except JsErr ChatResponse) (token : Nat → Bool)
        (jitter : Nat → Nat) (msg : String),
      token 0 = false → token 1 = false →
      transport 0 = .error ⟨some 401, msg⟩ →
      openaiProcessText transport token jitter =
        ⟨.error "Your OpenAI API key is invalid or has expired. Please check your API key settings.",
         1, []⟩) := by
  refine ⟨fun key model => rfl, fun key model => rfl, ?_⟩
  intro transport token jitter msg htok0 htok1 htr
  unfold openaiProcessText
  exact openaiRun_auth_halt _ _ _ ⟨some 401, msg⟩ token jitter
    (by simp [nonStreamTry, htr]) htok0 htok1 (Or.inl rfl)

/-- C8 witness: concrete instantiation — empty key accepted by the factory
and a 401 rejection surfaced after one call. -/
theorem C8_no_fail_fast_on_empty_key_witness :
    createAIService ⟨"openai", "", "gpt-4o", none⟩ = .ok .openai ∧
    openaiProcessText (fun _ => .error ⟨some 401, "Unauthorized"⟩)
        (fun _ => false) (fun _ => 0) =
      ⟨.error "Your OpenAI API key is invalid or has expired. Please check your API key settings.",
       1, []⟩ :=
  ⟨C8_no_fail_fast_on_empty_key.1 "" "gpt-4o",
   C8_no_fail_fast_on_empty_key.2.2 (fun _ => .error ⟨some 401, "Unauthorized"⟩)
     (fun _ => false) (fun _ => 0) "Unauthorized" rfl rfl rfl⟩

/-- C2 (counterexample): the local-daemon adapter has no unauthorized
branch: a transport that always rejects with a 401-style message is
retried through all 7 attempts instead of failing once. -/
theorem C2_ollama_retries_unauthorized :
    (ollamaProcessText ⟨"ollama", "", "llama3.2", none⟩
      (fun _ => .error ⟨none, "Ollama API error: 401 - unauthorized"⟩)
      (fun _ => false)).calls = 7 ∧
    (7 : Nat) ≠ 1 := by
  refine ⟨by decide, by decide⟩

/-- C2 (amended): for the two cloud adapters (all six operations), an error
matching the adapter's own invalid-API-key test is never retried: the
operation rejects immediately with the authorization message after exactly
one transport call and no backoff sleep. The local-daemon adapter has no
such branch and retries 401-style errors like Unknown errors. -/
theorem C2_no_retry_on_auth :
    (∀ (e : JsErr) (transport : Nat → Except JsErr ChatResponse)
        (token : Nat → Bool) (jitter : Nat → Nat),
      token 0 = false → token 1 = false →
      transport 0 = .error e →
      (e.status = some 401 ∨ containsSub (toLowerStr e.message) "api key" = true) →
      openaiProcessText transport token jitter =
        ⟨.error "Your OpenAI API key is invalid or has expired. Please check your API key settings.",
         1, []⟩) ∧
    (∀ (e : JsErr) (transport : Nat → Except JsErr (List String))
        (token : Nat → Bool) (jitter : Nat → Nat),
      token 0 = false → token 1 = false →
      transport 0 = .error e →
      (e.status = some 401 ∨ containsSub (toLowerStr e.message) "api key" = true) →
      openaiProcessTextStream transport token jitter =
        ⟨.error "Your OpenAI API key is invalid or has expired. Please check your API key settings.",
         1, []⟩) ∧
    (∀ (e : JsErr) (transport : Nat → Except JsErr (List String))
        (token : Nat → Bool) (jitter : Nat → Nat),
      token 0 = false → token 1 = false →
      transport 0 = .error e →
      (e.status = some 401 ∨ containsSub (toLowerStr e.message) "api key" = true) →
      openaiGenerateScriptStream transport token jitter =
        ⟨.error "Your OpenAI API key is invalid or has expired. Please check your API key settings.",
         1, []⟩) ∧
    (∀ (parse : String → GemParsed) (e : JsErr)
        (transport : Nat → Except JsErr (List String))
        (token : Nat → Bool) (jitter : Nat → Nat),
      token 0 = false → token 1 = false →
      transport 0 = .error e →
      ¬(containsSub (parse e.message).message cancelMsg = true) →
      ((parse e.message).code = 400 ∧
        ((parse e.message).status = "INVALID_ARGUMENT" ∨
          containsSub (toLowerStr (parse e.message).message) "api key" = true)) →
      geminiProcessText parse transport token jitter =
        ⟨.error "Your API key is invalid or has expired. Please check your API key settings.",
         1, []⟩) ∧
    (∀ (parse : String → GemParsed) (e : JsErr)
        (transport : Nat → Except JsErr (List String))
        (token : Nat → Bool) (jitter : Nat → Nat),
      token 0 = false → token 1 = false →
      transport 0 = .error e →
      ¬(containsSub (parse e.message).message cancelMsg = true) →
      ((parse e.message).code = 400 ∧
        ((parse e.message).status = "INVALID_ARGUMENT" ∨
          containsSub (toLowerStr (parse e.message).message) "api key" = true)) →
      geminiProcessTextStream parse transport token jitter =
        ⟨.error "Your API key is invalid or has expired. Please check your API key settings.",
         1, []⟩) ∧
    (∀ (parse : String → GemParsed) (e : JsErr)
        (transport : Nat → Except JsErr (List String))
        (token : Nat → Bool) (jitter : Nat → Nat),
      token 0 = false → token 1 = false →
      transport 0 = .error e →
      ¬(containsSub (parse e.message).message cancelMsg = true) →
      ((parse e.message).code = 400 ∧
        ((parse e.message).status = "INVALID_ARGUMENT" ∨
          containsSub (toLowerStr (parse e.message).message) "api key" = true)) →
      geminiGenerateScriptStream parse transport token jitter =
        ⟨.error "Your API key is invalid or has expired. Please check your API key settings.",
         1, []⟩) := by
  refine ⟨?_, ?_, ?_, ?_, ?_, ?_⟩
  · intro e transport token jitter h0 h1 htr hauth
    unfold openaiProcessText
    exact openaiRun_auth_halt _ _ _ e token jitter
      (by simp [nonStreamTry, htr]) h0 h1 hauth
  · intro e transport token jitter h0 h1 htr hauth
    unfold openaiProcessTextStream
    exact openaiRun_auth_halt _ _ _ e token jitter
      (by simp [streamTry, htr]) h0 h1 hauth
  · intro e transport token jitter h0 h1 htr hauth
    unfold openaiGenerateScriptStream
    exact openaiRun_auth_halt _ _ _ e token jitter
      (by simp [streamTry, htr]) h0 h1 hauth
  · intro parse e transport token jitter h0 h1 htr hnc hauth
    unfold geminiProcessText
    exact geminiRun_auth_halt _ parse _ _ e token jitter
      (by simp [streamTry, htr]) h0 h1 hnc hauth
  · intro parse e transport token jitter h0 h1 htr hnc hauth
    unfold geminiProcessTextStream
    exact geminiRun_auth_halt _ parse _ _ e token jitter
      (by simp [streamTry, htr]) h0 h1 hnc hauth
  · intro parse e transport token jitter h0 h1 htr hnc hauth
    unfold geminiGenerateScriptStream
    exact geminiRun_auth_halt _ parse _ _ e token jitter
      (by simp [streamTry, htr]) h0 h1 hnc hauth

/-- C2 witness: a 401 rejection on the OpenAI adapter and an
invalid-key-shaped rejection on the Gemini adapter both fail after exactly
one call. -/
theorem C2_no_retry_on_auth_witness :
    openaiProcessText (fun _ => .error ⟨some 401, "Unauthorized"⟩)
        (fun _ => false) (fun _ => 0) =
      ⟨.error "Your OpenAI API key is invalid or has expired. Please check your API key settings.",
       1, []⟩ ∧
    geminiProcessText (fun _ => ⟨400, "API key not valid", "INVALID_ARGUMENT"⟩)
        (fun _ => .error ⟨none, "bad key"⟩) (fun _ => false) (fun _ => 0) =
      ⟨.error "Your API key is invalid or has expired. Please check your API key settings.",
       1, []⟩ :=
  ⟨C2_no_retry_on_auth.1 ⟨some 401, "Unauthorized"⟩
     (fun _ => .error ⟨some 401, "Unauthorized"⟩) (fun _ => false) (fun _ => 0)
     rfl rfl rfl (Or.inl rfl),
   C2_no_retry_on_auth.2.2.2.1
     (fun _ => ⟨400, "API key not valid", "INVALID_ARGUMENT"⟩)
     ⟨none, "bad key"⟩ (fun _ => .error ⟨none, "bad key"⟩) (fun _ => false)
     (fun _ => 0) rfl rfl rfl (by decide) ⟨rfl, Or.inl rfl⟩⟩

/-- C5 (counterexample): with the daemon unreachable, `processText` rejects
with the cannot-connect message on the very first attempt (one transport
call, no retries), not after the standard 7-try retry schedule. -/
theorem C5_connection_failure_counterexample :
    ollamaProcessText ⟨"ollama", "", "llama3.2", none⟩
        (fun _ => .error ⟨none, "Failed to fetch"⟩) (fun _ => false) =
      ⟨.error "Cannot connect to Ollama at http://localhost:11434. Please ensure Ollama is running locally.",
       1, []⟩ ∧
    (1 : Nat) ≠ 7 := by
  refine ⟨by decide, by decide⟩

/-- C5 (amended): when the daemon transport rejects with a network-level
connection failure (message containing `fetch` or `Network`), the
operation rejects immediately on the first attempt with a message that
contains the configured base URL and the guidance to ensure the daemon is
running; no retry is applied. -/
theorem C5_connection_failure_message (config : AIConfig) (e : JsErr)
    (transport : Nat → Except JsErr OllamaResponse) (token : Nat → Bool)
    (htok0 : token 0 = false) (htok1 : token 1 = false)
    (htr : transport 0 = .error e)
    (hf : containsSub e.message "fetch" = true ∨
      containsSub e.message "Network" = true) :
    ollamaProcessText config transport token =
      ⟨.error ("Cannot connect to Ollama at " ++ ollamaBase config ++
        ". Please ensure Ollama is running locally."), 1, []⟩ ∧
    containsSub ("Cannot connect to Ollama at " ++ ollamaBase config ++
      ". Please ensure Ollama is running locally.") (ollamaBase config) = true := by
  constructor
  · unfold ollamaProcessText
    exact ollamaRun_fetch_halt _ (ollamaBase config) _ _ e token
      (by simp [nonStreamTry, htr]) htok0 htok1 hf
  · exact containsSub_middle "Cannot connect to Ollama at " (ollamaBase config)
      ". Please ensure Ollama is running locally."

/-- C5 witness: the default configuration rejects with a message containing
`localhost:11434` after exactly one call. -/
theorem C5_connection_failure_message_witness :
    (ollamaProcessText ⟨"ollama", "", "llama3.2", none⟩
        (fun _ => .error ⟨none, "TypeError: Failed to fetch"⟩)
        (fun _ => false) =
      ⟨.error ("Cannot connect to Ollama at " ++
        ollamaBase ⟨"ollama", "", "llama3.2", none⟩ ++
        ". Please ensure Ollama is running locally."), 1, []⟩ ∧
     containsSub ("Cannot connect to Ollama at " ++
       ollamaBase ⟨"ollama", "", "llama3.2", none⟩ ++
       ". Please ensure Ollama is running locally.")
       (ollamaBase ⟨"ollama", "", "llama3.2", none⟩) = true) ∧
    containsSub "Cannot connect to Ollama at http://localhost:11434. Please ensure Ollama is running locally."
      "localhost:11434" = true :=
  ⟨C5_connection_failure_message ⟨"ollama", "", "llama3.2", none⟩
     ⟨none, "TypeError: Failed to fetch"⟩
     (fun _ => .error ⟨none, "TypeError: Failed to fetch"⟩) (fun _ => false)
     rfl rfl rfl (Or.inl (by decide)),
   by decide⟩

/-- C4 (counterexample): an Overloaded-class error (HTTP 503) on the OpenAI
adapter is retried on the base `2000ms * 2^attempt` schedule, not the
inflated `15000ms * 2^attempt + jitter` schedule the claim requires for
RateLimited-or-Overloaded (the adapter inflates only on status 429). -/
theorem C4_openai_503_base_schedule :
    (openaiProcessText (fun _ => .error ⟨some 503, "Service Unavailable"⟩)
      (fun _ => false) (fun _ => 0)).sleeps =
      [2000, 4000, 8000, 16000, 32000, 64000] ∧
    ¬(15000 ≤ 2000) := by
  refine ⟨by decide, by decide⟩

/-- C4 (amended): the backoff schedules are per-adapter. The Gemini adapter
inflates (`15000 * 2^attempt + jitter attempt`) exactly when the parsed
code is 429 or 503 and uses the base schedule (`2000 * 2^attempt`)
otherwise; the OpenAI adapter inflates exactly when the error status
is 429 (a 503 gets the base schedule); the Ollama adapter always uses the
base schedule. -/
theorem C4_backoff_schedules :
    (∀ (e : JsErr) (transport : Nat → Except JsErr ChatResponse)
        (token : Nat → Bool) (jitter : Nat → Nat),
      (∀ a, transport a = .error e) → (∀ i, token i = false) →
      e.status = some 429 →
      ¬(containsSub (toLowerStr e.message) "api key" = true) →
      (openaiProcessText transport token jitter).sleeps =
        delaysFrom (fun a => 15000 * 2 ^ a + jitter a) 0 6) ∧
    (∀ (e : JsErr) (transport : Nat → Except JsErr ChatResponse)
        (token : Nat → Bool) (jitter : Nat → Nat),
      (∀ a, transport a = .error e) → (∀ i, token i = false) →
      ¬(e.status = some 429) →
      ¬(e.status = some 401 ∨ containsSub (toLowerStr e.message) "api key" = true) →
      (openaiProcessText transport token jitter).sleeps =
        delaysFrom (fun a => 2000 * 2 ^ a) 0 6) ∧
    (∀ (parse : String → GemParsed) (e : JsErr)
        (transport : Nat → Except JsErr (List String))
        (token : Nat → Bool) (jitter : Nat → Nat),
      (∀ a, transport a = .error e) → (∀ i, token i = false) →
      ¬(containsSub (parse e.message).message cancelMsg = true) →
      ¬((parse e.message).code = 400 ∧
        ((parse e.message).status = "INVALID_ARGUMENT" ∨
          containsSub (toLowerStr (parse e.message).message) "api key" = true)) →
      ((parse e.message).code = 429 ∨ (parse e.message).code = 503) →
      (geminiProcessText parse transport token jitter).sleeps =
        delaysFrom (fun a => 15000 * 2 ^ a + jitter a) 0 6) ∧
    (∀ (parse : String → GemParsed) (e : JsErr)
        (transport : Nat → Except JsErr (List String))
        (token : Nat → Bool) (jitter : Nat → Nat),
      (∀ a, transport a = .error e) → (∀ i, token i = false) →
      ¬(containsSub (parse e.message).message cancelMsg = true) →
      ¬((parse e.message).code = 400 ∧
        ((parse e.message).status = "INVALID_ARGUMENT" ∨
          containsSub (toLowerStr (parse e.message).message) "api key" = true)) →
      ¬((parse e.message).code = 429 ∨ (parse e.message).code = 503) →
      (geminiProcessText parse transport token jitter).sleeps =
        delaysFrom (fun a => 2000 * 2 ^ a) 0 6) ∧
    (∀ (config : AIConfig) (e : JsErr)
        (transport : Nat → Except JsErr OllamaResponse) (token : Nat → Bool),
      (∀ a, transport a = .error e) → (∀ i, token i = false) →
      ¬(containsSub e.message "fetch" = true ∨
        containsSub e.message "Network" = true) →
      (ollamaProcessText config transport token).sleeps =
        delaysFrom (fun a => 2000 * 2 ^ a) 0 6) := by
  refine ⟨?_, ?_, ?_, ?_, ?_⟩
  · intro e transport token jitter htr htok h429 hkey
    have hna : ¬(e.status = some 401 ∨
        containsSub (toLowerStr e.message) "api key" = true) := by
      rintro (h | h)
      · rw [h429] at h
        simp at h
      · exact hkey h
    have h := openaiRun_const_fail
      (nonStreamTry transport (fun r => normalizeOpenAI (choiceContent r)))
      "Failed to process text with OpenAI API: "
      "Failed to process text with OpenAI API after 6 attempts."
      e token jitter (by intro a r; simp [nonStreamTry, htr a]) htok hna
    unfold openaiProcessText
    rw [h]
    simp [h429, maxRetries]
  · intro e transport token jitter htr htok h429 hna
    have h := openaiRun_const_fail
      (nonStreamTry transport (fun r => normalizeOpenAI (choiceContent r)))
      "Failed to process text with OpenAI API: "
      "Failed to process text with OpenAI API after 6 attempts."
      e token jitter (by intro a r; simp [nonStreamTry, htr a]) htok hna
    unfold openaiProcessText
    rw [h]
    simp [h429, maxRetries]
  · intro parse e transport token jitter htr htok hnc hna hcode
    have h := geminiRun_const_fail
      (streamTry transport normalizeGemini token) parse
      "Failed to process text with Gemini API after multiple attempts. The service may be busy or unavailable."
      "Failed to process text with Gemini API after 6 attempts."
      e token jitter (by intro a r; simp [streamTry, htr a]) htok hnc hna
    unfold geminiProcessText
    rw [h]
    simp [hcode, maxRetries]
  · intro parse e transport token jitter htr htok hnc hna hcode
    have h := geminiRun_const_fail
      (streamTry transport normalizeGemini token) parse
      "Failed to process text with Gemini API after multiple attempts. The service may be busy or unavailable."
      "Failed to process text with Gemini API after 6 attempts."
      e token jitter (by intro a r; simp [streamTry, htr a]) htok hnc hna
    unfold geminiProcessText
    rw [h]
    simp [hcode, maxRetries]
  · intro config e transport token htr htok hnf
    have h := ollamaRun_const_fail
      (nonStreamTry transport (fun r => normalizeOllama r.content))
      (ollamaBase config) "Failed to process text with Ollama: "
      "Failed to process text with Ollama after 6 attempts."
      e token (by intro a r; simp [nonStreamTry, htr a]) htok hnf
    unfold ollamaProcessText
    rw [h]
    simp [maxRetries]

/-- C4 witness: a 429 on the OpenAI adapter with constant jitter 7 sleeps
the inflated schedule. -/
theorem C4_backoff_schedules_witness :
    (openaiProcessText (fun _ => .error ⟨some 429, "Too Many Requests"⟩)
      (fun _ => false) (fun _ => 7)).sleeps =
      [15007, 30007, 60007, 120007, 240007, 480007] := by
  have h := C4_backoff_schedules.1 ⟨some 429, "Too Many Requests"⟩
    (fun _ => .error ⟨some 429, "Too Many Requests"⟩) (fun _ => false)
    (fun _ => 7) (fun _ => rfl) (fun _ => rfl) rfl (by decide)
  rw [h]
  decide

/-- C1 (counterexample): an always-failing network-level error on the
local-daemon adapter is neither a cancellation nor an unauthorized error,
yet the transport is invoked exactly once, not 7 times. -/
theorem C1_retry_total_counterexample :
    (ollamaProcessText ⟨"ollama", "", "llama3.2", none⟩
      (fun _ => .error ⟨none, "Failed to fetch"⟩) (fun _ => false)).calls = 1 ∧
    (1 : Nat) ≠ 7 := by
  refine ⟨by decide, by decide⟩

/-- C1 (amended): for every operation of every adapter, a transport that
always rejects with an error the adapter classifies as retryable (not the
cancellation token, not the adapter's invalid-key test, and — for the
local-daemon adapter only — not a network/connection error) is invoked
exactly 7 times (1 initial try + 6 retries) before the operation rejects
with a synthesized error; a local-daemon network/connection error instead
rejects after exactly one invocation. -/
theorem C1_retry_totals :
    (∀ (e : JsErr) (transport : Nat → Except JsErr ChatResponse)
        (token : Nat → Bool) (jitter : Nat → Nat),
      (∀ a, transport a = .error e) → (∀ i, token i = false) →
      ¬(e.status = some 401 ∨ containsSub (toLowerStr e.message) "api key" = true) →
      (openaiProcessText transport token jitter).calls = 7 ∧
      ∃ m, (openaiProcessText transport token jitter).result = .error m) ∧
    (∀ (e : JsErr) (transport : Nat → Except JsErr (List String))
        (token : Nat → Bool) (jitter : Nat → Nat),
      (∀ a, transport a = .error e) → (∀ i, token i = false) →
      ¬(e.status = some 401 ∨ containsSub (toLowerStr e.message) "api key" = true) →
      (openaiProcessTextStream transport token jitter).calls = 7 ∧
      ∃ m, (openaiProcessTextStream transport token jitter).result = .error m) ∧
    (∀ (e : JsErr) (transport : Nat → Except JsErr (List String))
        (token : Nat → Bool) (jitter : Nat → Nat),
      (∀ a, transport a = .error e) → (∀ i, token i = false) →
      ¬(e.status = some 401 ∨ containsSub (toLowerStr e.message) "api key" = true) →
      (openaiGenerateScriptStream transport token jitter).calls = 7 ∧
      ∃ m, (openaiGenerateScriptStream transport token jitter).result = .error m) ∧
    (∀ (config : AIConfig) (e : JsErr)
        (transport : Nat → Except JsErr OllamaResponse) (token : Nat → Bool),
      (∀ a, transport a = .error e) → (∀ i, token i = false) →
      ¬(containsSub e.message "fetch" = true ∨
        containsSub e.message "Network" = true) →
      (ollamaProcessText config transport token).calls = 7 ∧
      ∃ m, (ollamaProcessText config transport token).result = .error m) ∧
    (∀ (config : AIConfig) (e : JsErr)
        (transport : Nat → Except JsErr (List String)) (token : Nat → Bool),
      (∀ a, transport a = .error e) → (∀ i, token i = false) →
      ¬(containsSub e.message "fetch" = true ∨
        containsSub e.message "Network" = true) →
      (ollamaProcessTextStream config transport token).calls = 7 ∧
      ∃ m, (ollamaProcessTextStream config transport token).result = .error m) ∧
    (∀ (config : AIConfig) (e : JsErr)
        (transport : Nat → Except JsErr (List String)) (token : Nat → Bool),
      (∀ a, transport a = .error e) → (∀ i, token i = false) →
      ¬(containsSub e.message "fetch" = true ∨
        containsSub e.message "Network" = true) →
      (ollamaGenerateScriptStream config transport token).calls = 7 ∧
      ∃ m, (ollamaGenerateScriptStream config transport token).result = .error m) ∧
    (∀ (parse : String → GemParsed) (e : JsErr)
        (transport : Nat → Except JsErr (List String))
        (token : Nat → Bool) (jitter : Nat → Nat),
      (∀ a, transport a = .error e) → (∀ i, token i = false) →
      ¬(containsSub (parse e.message).message cancelMsg = true) →
      ¬((parse e.message).code = 400 ∧
        ((parse e.message).status = "INVALID_ARGUMENT" ∨
          containsSub (toLowerStr (parse e.message).message) "api key" = true)) →
      (geminiProcessText parse transport token jitter).calls = 7 ∧
      ∃ m, (geminiProcessText parse transport token jitter).result = .error m) ∧
    (∀ (parse : String → GemParsed) (e : JsErr)
        (transport : Nat → Except JsErr (List String))
        (token : Nat → Bool) (jitter : Nat → Nat),
      (∀ a, transport a = .error e) → (∀ i, token i = false) →
      ¬(containsSub (parse e.message).message cancelMsg = true) →
      ¬((parse e.message).code = 400 ∧
        ((parse e.message).status = "INVALID_ARGUMENT" ∨
          containsSub (toLowerStr (parse e.message).message) "api key" = true)) →
      (geminiProcessTextStream parse transport token jitter).calls = 7 ∧
      ∃ m, (geminiProcessTextStream parse transport token jitter).result = .error m) ∧
    (∀ (parse : String → GemParsed) (e : JsErr)
        (transport : Nat → Except JsErr (List String))
        (token : Nat → Bool) (jitter : Nat → Nat),
      (∀ a, transport a = .error e) → (∀ i, token i = false) →
      ¬(containsSub (parse e.message).message cancelMsg = true) →
      ¬((parse e.message).code = 400 ∧
        ((parse e.message).status = "INVALID_ARGUMENT" ∨
          containsSub (toLowerStr (parse e.message).message) "api key" = true)) →
      (geminiGenerateScriptStream parse transport token jitter).calls = 7 ∧
      ∃ m, (geminiGenerateScriptStream parse transport token jitter).result = .error m) ∧
    (∀ (config : AIConfig) (e : JsErr)
        (transport : Nat → Except JsErr OllamaResponse) (token : Nat → Bool),
      token 0 = false → token 1 = false → transport 0 = .error e →
      (containsSub e.message "fetch" = true ∨
        containsSub e.message "Network" = true) →
      (ollamaProcessText config transport token).calls = 1) := by
  refine ⟨?_, ?_, ?_, ?_, ?_, ?_, ?_, ?_, ?_, ?_⟩
  · intro e transport token jitter htr htok hna
    have h := openaiRun_const_fail
      (nonStreamTry transport (fun r => normalizeOpenAI (choiceContent r)))
      "Failed to process text with OpenAI API: "
      "Failed to process text with OpenAI API after 6 attempts."
      e token jitter (by intro a r; simp [nonStreamTry, htr a]) htok hna
    unfold openaiProcessText
    rw [h]
    exact ⟨rfl, _, rfl⟩
  · intro e transport token jitter htr htok hna
    have h := openaiRun_const_fail (streamTry transport normalizeOpenAI token)
      "Failed to process text stream with OpenAI API: "
      "Failed to process text stream with OpenAI API after 6 attempts."
      e token jitter (by intro a r; simp [streamTry, htr a]) htok hna
    unfold openaiProcessTextStream
    rw [h]
    exact ⟨rfl, _, rfl⟩
  · intro e transport token jitter htr htok hna
    have h := openaiRun_const_fail (streamTry transport normalizeOpenAI token)
      "Failed to process multi-modal stream with OpenAI API: "
      "Failed to process multi-modal stream with OpenAI API after 6 attempts."
      e token jitter (by intro a r; simp [streamTry, htr a]) htok hna
    unfold openaiGenerateScriptStream
    rw [h]
    exact ⟨rfl, _, rfl⟩
  · intro config e transport token htr htok hnf
    have h := ollamaRun_const_fail
      (nonStreamTry transport (fun r => normalizeOllama r.content))
      (ollamaBase config) "Failed to process text with Ollama: "
      "Failed to process text with Ollama after 6 attempts."
      e token (by intro a r; simp [nonStreamTry, htr a]) htok hnf
    unfold ollamaProcessText
    rw [h]
    exact ⟨rfl, _, rfl⟩
  · intro config e transport token htr htok hnf
    have h := ollamaRun_const_fail (streamTry transport normalizeOllama token)
      (ollamaBase config) "Failed to process text stream with Ollama: "
      "Failed to process text stream with Ollama after 6 attempts."
      e token (by intro a r; simp [streamTry, htr a]) htok hnf
    unfold ollamaProcessTextStream
    rw [h]
    exact ⟨rfl, _, rfl⟩
  · intro config e transport token htr htok hnf
    have h := ollamaRun_const_fail (streamTry transport normalizeOllama token)
      (ollamaBase config) "Failed to process multi-modal stream with Ollama: "
      "Failed to process multi-modal stream with Ollama after 6 attempts."
      e token (by intro a r; simp [streamTry, htr a]) htok hnf
    unfold ollamaGenerateScriptStream
    rw [h]
    exact ⟨rfl, _, rfl⟩
  · intro parse e transport token jitter htr htok hnc hna
    have h := geminiRun_const_fail (streamTry transport normalizeGemini token)
      parse
      "Failed to process text with Gemini API after multiple attempts. The service may be busy or unavailable."
      "Failed to process text with Gemini API after 6 attempts."
      e token jitter (by intro a r; simp [streamTry, htr a]) htok hnc hna
    unfold geminiProcessText
    rw [h]
    exact ⟨rfl, _, rfl⟩
  · intro parse e transport token jitter htr htok hnc hna
    have h := geminiRun_const_fail (streamTry transport normalizeGemini token)
      parse
      "Failed to process text stream with Gemini API after multiple attempts. The service may be busy or unavailable."
      "Failed to process text stream with Gemini API after 6 attempts."
      e token jitter (by intro a r; simp [streamTry, htr a]) htok hnc hna
    unfold geminiProcessTextStream
    rw [h]
    exact ⟨rfl, _, rfl⟩
  · intro parse e transport token jitter htr htok hnc hna
    have h := geminiRun_const_fail (streamTry transport normalizeGemini token)
      parse
      "Failed to process multi-modal stream with Gemini API after multiple attempts. The service may be busy or unavailable."
      "Failed to process multi-modal stream with Gemini API after 6 attempts."
      e token jitter (by intro a r; simp [streamTry, htr a]) htok hnc hna
    unfold geminiGenerateScriptStream
    rw [h]
    exact ⟨rfl, _, rfl⟩
  · intro config e transport token h0 h1 htr hf
    have h := ollamaRun_fetch_halt
      (nonStreamTry transport (fun r => normalizeOllama r.content))
      (ollamaBase config) "Failed to process text with Ollama: "
      "Failed to process text with Ollama after 6 attempts."
      e token (by simp [nonStreamTry, htr]) h0 h1 hf
    unfold ollamaProcessText
    rw [h]

/-- C1 witness: a generic failure on the OpenAI adapter is tried 7 times; a
connection failure on the Ollama adapter is tried once. -/
theorem C1_retry_totals_witness :
    ((openaiProcessText (fun _ => .error ⟨none, "boom"⟩) (fun _ => false)
        (fun _ => 0)).calls = 7 ∧
      ∃ m, (openaiProcessText (fun _ => .error ⟨none, "boom"⟩) (fun _ => false)
        (fun _ => 0)).result = .error m) ∧
    (ollamaProcessText ⟨"ollama", "", "llama3.2", none⟩
      (fun _ => .error ⟨none, "Failed to fetch"⟩) (fun _ => false)).calls = 1 :=
  ⟨C1_retry_totals.1 ⟨none, "boom"⟩ (fun _ => .error ⟨none, "boom"⟩)
     (fun _ => false) (fun _ => 0) (fun _ => rfl) (fun _ => rfl) (by decide),
   C1_retry_totals.2.2.2.2.2.2.2.2.2 ⟨"ollama", "", "llama3.2", none⟩
     ⟨none, "Failed to fetch"⟩ (fun _ => .error ⟨none, "Failed to fetch"⟩)
     (fun _ => false) rfl rfl rfl (Or.inl (by decide))⟩

/-- C3 (confirmed): cancellation precedence. First, for every operation of
every adapter, a token that reads set at every cooperative check makes the
operation reject with the user-cancellation error with zero transport
invocations and zero sleeps. Second (for the `processText` operation of
each adapter, with an always-failing retryable transport error), if the
token is first observed set at the catch check of attempt `a`, the
cancellation error propagates immediately: `a + 1` transport calls, only
the `a` earlier sleeps, and no classification-based retry of attempt `a`. -/
theorem C3_cancellation_precedence :
    (∀ (transport : Nat → Except JsErr ChatResponse) (token : Nat → Bool)
        (jitter : Nat → Nat), (∀ i, token i = true) →
      openaiProcessText transport token jitter = ⟨.error cancelMsg, 0, []⟩) ∧
    (∀ (transport : Nat → Except JsErr (List String)) (token : Nat → Bool)
        (jitter : Nat → Nat), (∀ i, token i = true) →
      openaiProcessTextStream transport token jitter =
        ⟨.error cancelMsg, 0, []⟩) ∧
    (∀ (transport : Nat → Except JsErr (List String)) (token : Nat → Bool)
        (jitter : Nat → Nat), (∀ i, token i = true) →
      openaiGenerateScriptStream transport token jitter =
        ⟨.error cancelMsg, 0, []⟩) ∧
    (∀ (config : AIConfig) (transport : Nat → Except JsErr OllamaResponse)
        (token : Nat → Bool), (∀ i, token i = true) →
      ollamaProcessText config transport token = ⟨.error cancelMsg, 0, []⟩) ∧
    (∀ (config : AIConfig) (transport : Nat → Except JsErr (List String))
        (token : Nat → Bool), (∀ i, token i = true) →
      ollamaProcessTextStream config transport token =
        ⟨.error cancelMsg, 0, []⟩) ∧
    (∀ (config : AIConfig) (transport : Nat → Except JsErr (List String))
        (token : Nat → Bool), (∀ i, token i = true) →
      ollamaGenerateScriptStream config transport token =
        ⟨.error cancelMsg, 0, []⟩) ∧
    (∀ (parse : String → GemParsed)
        (transport : Nat → Except JsErr (List String)) (token : Nat → Bool)
        (jitter : Nat → Nat), (∀ i, token i = true) →
      geminiProcessText parse transport token jitter =
        ⟨.error cancelMsg, 0, []⟩) ∧
    (∀ (parse : String → GemParsed)
        (transport : Nat → Except JsErr (List String)) (token : Nat → Bool)
        (jitter : Nat → Nat), (∀ i, token i = true) →
      geminiProcessTextStream parse transport token jitter =
        ⟨.error cancelMsg, 0, []⟩) ∧
    (∀ (parse : String → GemParsed)
        (transport : Nat → Except JsErr (List String)) (token : Nat → Bool)
        (jitter : Nat → Nat), (∀ i, token i = true) →
      geminiGenerateScriptStream parse transport token jitter =
        ⟨.error cancelMsg, 0, []⟩) ∧
    (∀ (e : JsErr) (transport : Nat → Except JsErr ChatResponse)
        (jitter : Nat → Nat) (a : Nat), a ≤ 6 →
      (∀ i, transport i = .error e) →
      ¬(e.status = some 401 ∨ containsSub (toLowerStr e.message) "api key" = true) →
      (openaiProcessText transport (fun i => decide (2 * a + 1 ≤ i))
          jitter).result = .error cancelMsg ∧
      (openaiProcessText transport (fun i => decide (2 * a + 1 ≤ i))
          jitter).calls = a + 1 ∧
      (openaiProcessText transport (fun i => decide (2 * a + 1 ≤ i))
          jitter).sleeps.length = a) ∧
    (∀ (config : AIConfig) (e : JsErr)
        (transport : Nat → Except JsErr OllamaResponse) (a : Nat), a ≤ 6 →
      (∀ i, transport i = .error e) →
      ¬(containsSub e.message "fetch" = true ∨
        containsSub e.message "Network" = true) →
      (ollamaProcessText config transport
          (fun i => decide (2 * a + 1 ≤ i))).result = .error cancelMsg ∧
      (ollamaProcessText config transport
          (fun i => decide (2 * a + 1 ≤ i))).calls = a + 1 ∧
      (ollamaProcessText config transport
          (fun i => decide (2 * a + 1 ≤ i))).sleeps.length = a) ∧
    (∀ (parse : String → GemParsed) (e : JsErr)
        (transport : Nat → Except JsErr (List String)) (jitter : Nat → Nat)
        (a : Nat), a ≤ 6 →
      (∀ i, transport i = .error e) →
      ¬(containsSub (parse e.message).message cancelMsg = true) →
      ¬((parse e.message).code = 400 ∧
        ((parse e.message).status = "INVALID_ARGUMENT" ∨
          containsSub (toLowerStr (parse e.message).message) "api key" = true)) →
      (geminiProcessText parse transport (fun i => decide (2 * a + 1 ≤ i))
          jitter).result = .error cancelMsg ∧
      (geminiProcessText parse transport (fun i => decide (2 * a + 1 ≤ i))
          jitter).calls = a + 1 ∧
      (geminiProcessText parse transport (fun i => decide (2 * a + 1 ≤ i))
          jitter).sleeps.length = a) := by
  refine ⟨?_, ?_, ?_, ?_, ?_, ?_, ?_, ?_, ?_, ?_, ?_, ?_⟩
  · intro transport token jitter htok
    unfold openaiProcessText runCall
    exact runLoop_cancel_first _ _ token _ maxRetries 0 0 0 [] (htok 0) (htok 1)
      (by simp [openaiCatch])
  · intro transport token jitter htok
    unfold openaiProcessTextStream runCall
    exact runLoop_cancel_first _ _ token _ maxRetries 0 0 0 [] (htok 0) (htok 1)
      (by simp [openaiCatch])
  · intro transport token jitter htok
    unfold openaiGenerateScriptStream runCall
    exact runLoop_cancel_first _ _ token _ maxRetries 0 0 0 [] (htok 0) (htok 1)
      (by simp [openaiCatch])
  · intro config transport token htok
    unfold ollamaProcessText runCall
    exact runLoop_cancel_first _ _ token _ maxRetries 0 0 0 [] (htok 0) (htok 1)
      (by simp [ollamaCatch])
  · intro config transport token htok
    unfold ollamaProcessTextStream runCall
    exact runLoop_cancel_first _ _ token _ maxRetries 0 0 0 [] (htok 0) (htok 1)
      (by simp [ollamaCatch])
  · intro config transport token htok
    unfold ollamaGenerateScriptStream runCall
    exact runLoop_cancel_first _ _ token _ maxRetries 0 0 0 [] (htok 0) (htok 1)
      (by simp [ollamaCatch])
  · intro parse transport token jitter htok
    unfold geminiProcessText runCall
    exact runLoop_cancel_first _ _ token _ maxRetries 0 0 0 [] (htok 0) (htok 1)
      (by simp [geminiCatch])
  · intro parse transport token jitter htok
    unfold geminiProcessTextStream runCall
    exact runLoop_cancel_first _ _ token _ maxRetries 0 0 0 [] (htok 0) (htok 1)
      (by simp [geminiCatch])
  · intro parse transport token jitter htok
    unfold geminiGenerateScriptStream runCall
    exact runLoop_cancel_first _ _ token _ maxRetries 0 0 0 [] (htok 0) (htok 1)
      (by simp [geminiCatch])
  · intro e transport jitter a ha htr hna
    have h := runLoop_cancel_at
      (nonStreamTry transport (fun r => normalizeOpenAI (choiceContent r)))
      (openaiCatch jitter "Failed to process text with OpenAI API: ")
      "Failed to process text with OpenAI API after 6 attempts."
      e (fun j => if e.status = some 429 then 15000 * 2 ^ j + jitter j
          else 2000 * 2 ^ j)
      a ha (by intro j r; simp [nonStreamTry, htr j])
      (by intro j hj
          have hj6 : j < maxRetries := by unfold maxRetries; omega
          simp [openaiCatch, hna, hj6])
      (by simp [openaiCatch])
      (maxRetries + 1) 0 0 [] (by omega) (by omega)
    simp only [Nat.mul_zero, Nat.sub_zero, Nat.zero_add, List.nil_append] at h
    unfold openaiProcessText runCall
    rw [h]
    exact ⟨rfl, rfl, delaysFrom_length _ a 0⟩
  · intro config e transport a ha htr hnf
    have h := runLoop_cancel_at
      (nonStreamTry transport (fun r => normalizeOllama r.content))
      (ollamaCatch (ollamaBase config) "Failed to process text with Ollama: ")
      "Failed to process text with Ollama after 6 attempts."
      e (fun j => 2000 * 2 ^ j)
      a ha (by intro j r; simp [nonStreamTry, htr j])
      (by intro j hj
          have hj6 : j < maxRetries := by unfold maxRetries; omega
          simp [ollamaCatch, hnf, hj6])
      (by simp [ollamaCatch])
      (maxRetries + 1) 0 0 [] (by omega) (by omega)
    simp only [Nat.mul_zero, Nat.sub_zero, Nat.zero_add, List.nil_append] at h
    unfold ollamaProcessText runCall
    rw [h]
    exact ⟨rfl, rfl, delaysFrom_length _ a 0⟩
  · intro parse e transport jitter a ha htr hnc hna
    have h := runLoop_cancel_at
      (streamTry transport normalizeGemini (fun i => decide (2 * a + 1 ≤ i)))
      (geminiCatch parse jitter
        "Failed to process text with Gemini API after multiple attempts. The service may be busy or unavailable.")
      "Failed to process text with Gemini API after 6 attempts."
      e (fun j => if (parse e.message).code = 429 ∨ (parse e.message).code = 503
          then 15000 * 2 ^ j + jitter j else 2000 * 2 ^ j)
      a ha (by intro j r; simp [streamTry, htr j])
      (by intro j hj
          have hj6 : j < maxRetries := by unfold maxRetries; omega
          simp [geminiCatch, hnc, hna, hj6])
      (by simp [geminiCatch])
      (maxRetries + 1) 0 0 [] (by omega) (by omega)
    simp only [Nat.mul_zero, Nat.sub_zero, Nat.zero_add, List.nil_append] at h
    unfold geminiProcessText runCall
    rw [h]
    exact ⟨rfl, rfl, delaysFrom_length _ a 0⟩

/-- C3 witness: a pre-set token cancels before any transport call; a token
set during attempt 1 cancels right after its catch check with one sleep
and two calls. -/
theorem C3_cancellation_precedence_witness :
    openaiProcessText (fun _ => .ok ⟨[]⟩) (fun _ => true) (fun _ => 0) =
      ⟨.error cancelMsg, 0, []⟩ ∧
    ((openaiProcessText (fun _ => .error ⟨none, "boom"⟩)
        (fun i => decide (2 * 1 + 1 ≤ i)) (fun _ => 0)).result =
      .error cancelMsg ∧
     (openaiProcessText (fun _ => .error ⟨none, "boom"⟩)
        (fun i => decide (2 * 1 + 1 ≤ i)) (fun _ => 0)).calls = 1 + 1 ∧
     (openaiProcessText (fun _ => .error ⟨none, "boom"⟩)
        (fun i => decide (2 * 1 + 1 ≤ i)) (fun _ => 0)).sleeps.length = 1) :=
  ⟨C3_cancellation_precedence.1 (fun _ => .ok ⟨[]⟩) (fun _ => true)
     (fun _ => 0) (fun _ => rfl),
   C3_cancellation_precedence.2.2.2.2.2.2.2.2.2.1 ⟨none, "boom"⟩
     (fun _ => .error ⟨none, "boom"⟩) (fun _ => 0) 1 (by omega)
     (fun _ => rfl) (by decide)⟩

/-- C9 witness: concrete prompt and content produce the single combined
user message. -/
theorem C9_single_user_message_witness :
    openaiProcessTextMessages "p" "c" =
      [⟨"user", "p" ++ "\n\n---\n\n" ++ "c"⟩] ∧
    openaiProcessTextStreamMessages "p" "c" =
      [⟨"user", "p" ++ "\n\n---\n\n" ++ "c"⟩] :=
  C9_single_user_message "p" "c"
theorem plainChar_spec {c : Char} (h : plainChar c = true) :
    ¬(c = '\n') ∧ ¬(c = '>') ∧ ¬(c = ':') ∧ c.isWhitespace = false := by
  simp [plainChar] at h
  exact ⟨h.1.1.1, h.1.1.2, h.1.2, h.2⟩

theorem takeWhile_nl_append (xs r : List Char)
    (hx : ∀ c ∈ xs, ¬(c = '\n')) :
    (xs ++ '\n' :: r).takeWhile (· ≠ '\n') = xs := by
  induction xs with
  | nil => simp
  | cons c cs ih =>
    simp only [List.cons_append, List.takeWhile_cons]
    rw [if_pos (by simp [hx c (by simp)])]
    rw [ih (fun d hd => hx d (by simp [hd]))]

theorem dropWhile_nl_append (xs r : List Char)
    (hx : ∀ c ∈ xs, ¬(c = '\n')) :
    (xs ++ '\n' :: r).dropWhile (· ≠ '\n') = '\n' :: r := by
  induction xs with
  | nil => simp
  | cons c cs ih =>
    simp only [List.cons_append, List.dropWhile_cons]
    rw [if_pos (by simp [hx c (by simp)])]
    exact ih (fun d hd => hx d (by simp [hd]))

theorem trimRightWs_append_nl (l : List Char) :
    trimRightWs (l ++ ['\n']) = trimRightWs l := by
  unfold trimRightWs
  simp

theorem trimRightWs_append_nonws (l : List Char) (c : Char)
    (h : c.isWhitespace = false) : trimRightWs (l ++ [c]) = l ++ [c] := by
  unfold trimRightWs
  simp [h]

theorem trimRightWs_plain_end (pre a : List Char) (ha : Plain a)
    (hne : a ≠ []) : trimRightWs (pre ++ a) = pre ++ a := by
  rcases List.eq_nil_or_concat a with h | ⟨L, b, rfl⟩
  · exact absurd h hne
  · rw [List.concat_eq_append, ← List.append_assoc]
    exact trimRightWs_append_nonws (pre ++ L) b
      (plainChar_spec (ha b (by simp))).2.2.2

theorem startsWithL_cons_eq (p c : Char) (ps cs : List Char) :
    startsWithL (p :: ps) (c :: cs) = (decide (p = c) && startsWithL ps cs) :=
  rfl

theorem startsWithL_guided_ne (c : Char) (z : List Char) (h : ¬(c = ':')) :
    startsWithL guidedHeader (c :: z) = false := by
  have e : guidedHeader = ':' :: "::ShowGuided(ShowGuided=Yes)".data := rfl
  rw [e, startsWithL_cons_eq]
  have h2 : ¬(':' = c) := fun hh => h hh.symm
  simp [h2]

theorem startsWithL_advanced_ne (c : Char) (z : List Char) (h : ¬(c = ':')) :
    startsWithL advancedHeader (c :: z) = false := by
  have e : advancedHeader = ':' :: "::ShowAdvanced(ShowAdvanced=Yes)".data := rfl
  rw [e, startsWithL_cons_eq]
  have h2 : ¬(':' = c) := fun hh => h hh.symm
  simp [h2]

theorem startsWithL_close_ne (c : Char) (z : List Char) (h : ¬(c = ':')) :
    startsWithL blockClose (c :: z) = false := by
  have e : blockClose = ':' :: "::".data := rfl
  rw [e, startsWithL_cons_eq]
  have h2 : ¬(':' = c) := fun hh => h hh.symm
  simp [h2]

theorem splitFirst_plain (x y : List Char) (hx : ∀ c ∈ x, ¬(c = ':')) :
    splitFirst blockClose (x ++ (blockClose ++ y)) = some (x, y) := by
  induction x with
  | nil =>
    have e : ([] : List Char) ++ (blockClose ++ y) = ':' :: ':' :: ':' :: y := rfl
    rw [e]
    have hs : startsWithL blockClose (':' :: ':' :: ':' :: y) = true :=
      startsWithL_self blockClose y
    simp only [splitFirst]
    rw [if_pos ⟨by decide, hs⟩]
    rfl
  | cons c cs ih =>
    have hc : ¬(c = ':') := hx c (by simp)
    simp only [List.cons_append, splitFirst]
    rw [if_neg (by simp [startsWithL_close_ne c _ hc])]
    simp only [List.append_eq]
    rw [ih (fun d hd => hx d (by simp [hd]))]

theorem calloutMatch_ne (tag : List Char) (c : Char) (cs : List Char)
    (h : ¬(c = '>')) : calloutMatch tag (c :: cs) = none := by
  unfold calloutMatch
  split
  · rename_i t heq
    injection heq with h1 h2
    exact (h h1).elim
  · rfl

theorem tcl_nil : ∀ fuel, takeContLinesFuel fuel [] = ([], []) := by
  intro fuel
  cases fuel <;> rfl

theorem tcl_ne (c : Char) (t : List Char) (h : ¬(c = '>')) :
    ∀ fuel, takeContLinesFuel fuel (c :: t) = ([], c :: t) := by
  intro fuel
  cases fuel with
  | zero => rfl
  | succ n =>
    unfold takeContLinesFuel
    split <;> simp_all

theorem tcl_unit (t t3 cont rest : List Char)
    (ht : t.dropWhile (· ≠ '\n') = '\n' :: t3)
    (hrec : ∀ f, t3.length ≤ f → takeContLinesFuel f t3 = (cont, rest)) :
    ∀ f, ('>' :: t).length ≤ f →
      takeContLinesFuel f ('>' :: t) =
        ('>' :: (t.takeWhile (· ≠ '\n') ++ '\n' :: cont), rest) := by
  intro f hf
  have hlen : t3.length < t.length := by
    have h1 : (t.dropWhile (· ≠ '\n')).length ≤ t.length :=
      List.Sublist.length_le (List.dropWhile_sublist _)
    rw [ht] at h1
    simp at h1
    omega
  cases f with
  | zero => simp at hf
  | succ n =>
    simp only [takeContLinesFuel]
    rw [ht]
    simp only [hrec n (by simp at hf; omega)]

theorem ec_nil (tag : List Char) :
    ∀ fuel, extractCalloutsFuel tag fuel [] = ([], []) := by
  intro fuel
  cases fuel <;> rfl

theorem ec_skip_char (tag : List Char) (c : Char) (cs r : List Char)
    (acc : List (List Char))
    (hm : calloutMatch tag (c :: cs) = none)
    (hrec : ∀ f, cs.length ≤ f → extractCalloutsFuel tag f cs = (r, acc)) :
    ∀ f, (c :: cs).length ≤ f →
      extractCalloutsFuel tag f (c :: cs) = (c :: r, acc) := by
  intro f hf
  cases f with
  | zero => simp at hf
  | succ n =>
    unfold extractCalloutsFuel
    rw [hm]
    rw [hrec n (by simp at hf; omega)]

theorem ec_skip_seg (tag : List Char) (xs l r : List Char)
    (acc : List (List Char))
    (hxs : ∀ c ∈ xs, ¬(c = '>'))
    (hrec : ∀ f, l.length ≤ f → extractCalloutsFuel tag f l = (r, acc)) :
    ∀ f, (xs ++ l).length ≤ f →
      extractCalloutsFuel tag f (xs ++ l) = (xs ++ r, acc) := by
  induction xs with
  | nil => simpa using hrec
  | cons c cs ih =>
    intro f hf
    simp only [List.cons_append]
    rw [ec_skip_char tag c (cs ++ l) (cs ++ r) acc
      (calloutMatch_ne tag c _ (hxs c (by simp)))
      (ih (fun d hd => hxs d (by simp [hd]))) f (by simpa using hf)]

theorem ec_match (tag : List Char) (l m rest r : List Char)
    (acc : List (List Char))
    (hm : calloutMatch tag l = some (m, rest))
    (hlen : rest.length < l.length)
    (hrec : ∀ f, rest.length ≤ f → extractCalloutsFuel tag f rest = (r, acc)) :
    ∀ f, l.length ≤ f →
      extractCalloutsFuel tag f l = (r, trimWs m :: acc) := by
  intro f hf
  cases f with
  | zero => omega
  | succ n =>
    cases l with
    | nil => simp at hlen
    | cons c cs =>
      unfold extractCalloutsFuel
      rw [hm]
      simp only [hrec n (by simp at hf hlen ⊢; omega)]

theorem cgb_nil : ∀ fuel, cleanGuidedBlocksFuel fuel [] = ([], []) := by
  intro fuel
  cases fuel <;> rfl

theorem cgb_skip_char (c : Char) (cs r : List Char) (acc : List (List Char))
    (hs : startsWithL guidedHeader (c :: cs) = false)
    (hrec : ∀ f, cs.length ≤ f → cleanGuidedBlocksFuel f cs = (r, acc)) :
    ∀ f, (c :: cs).length ≤ f →
      cleanGuidedBlocksFuel f (c :: cs) = (c :: r, acc) := by
  intro f hf
  cases f with
  | zero => simp at hf
  | succ n =>
    simp only [cleanGuidedBlocksFuel]
    rw [if_neg (by simp [hs])]
    simp only [hrec n (by simp at hf; omega)]

theorem cgb_skip_seg (xs l r : List Char) (acc : List (List Char))
    (hxs : ∀ c ∈ xs, ¬(c = ':'))
    (hrec : ∀ f, l.length ≤ f → cleanGuidedBlocksFuel f l = (r, acc)) :
    ∀ f, (xs ++ l).length ≤ f →
      cleanGuidedBlocksFuel f (xs ++ l) = (xs ++ r, acc) := by
  induction xs with
  | nil => simpa using hrec
  | cons c cs ih =>
    intro f hf
    simp only [List.cons_append]
    rw [cgb_skip_char c (cs ++ l) (cs ++ r) acc
      (startsWithL_guided_ne c _ (hxs c (by simp)))
      (ih (fun d hd => hxs d (by simp [hd]))) f (by simpa using hf)]

theorem cgb_match (mid after r cleaned : List Char) (ex acc : List (List Char))
    (hmid : ∀ c ∈ mid, ¬(c = ':'))
    (hcb : cleanGuidedBlock (guidedHeader ++ mid ++ blockClose) = (cleaned, ex))
    (hrec : ∀ f, after.length ≤ f → cleanGuidedBlocksFuel f after = (r, acc)) :
    ∀ f, (guidedHeader ++ (mid ++ (blockClose ++ after))).length ≤ f →
      cleanGuidedBlocksFuel f (guidedHeader ++ (mid ++ (blockClose ++ after))) =
        (cleaned ++ r, ex ++ acc) := by
  intro f hf
  cases f with
  | zero =>
    simp only [List.length_append] at hf
    have hg : guidedHeader.length = 29 := rfl
    omega
  | succ n =>
    have e : guidedHeader ++ (mid ++ (blockClose ++ after)) =
        ':' :: ("::ShowGuided(ShowGuided=Yes)".data ++ (mid ++ (blockClose ++ after))) := rfl
    rw [e]
    simp only [cleanGuidedBlocksFuel]
    have hstart : startsWithL guidedHeader
        (':' :: ("::ShowGuided(ShowGuided=Yes)".data ++ (mid ++ (blockClose ++ after)))) = true :=
      startsWithL_self guidedHeader (mid ++ (blockClose ++ after))
    rw [if_pos hstart]
    have hdrop : (':' :: ("::ShowGuided(ShowGuided=Yes)".data ++
        (mid ++ (blockClose ++ after)))).drop guidedHeader.length =
        mid ++ (blockClose ++ after) :=
      List.drop_left guidedHeader (mid ++ (blockClose ++ after))
    have hsplit : splitFirst blockClose ((':' :: ("::ShowGuided(ShowGuided=Yes)".data ++
        (mid ++ (blockClose ++ after)))).drop guidedHeader.length) = some (mid, after) := by
      rw [hdrop]
      exact splitFirst_plain mid after hmid
    have hlen : after.length ≤ n := by
      simp only [List.length_append] at hf
      have hg : guidedHeader.length = 29 := rfl
      have hb : blockClose.length = 3 := rfl
      omega
    simp only [hsplit, hcb, hrec n hlen]

theorem rb_nil (g : List Char → List Char) :
    ∀ fuel, replaceBlocksFuel advancedHeader g fuel [] = [] := by
  intro fuel
  cases fuel <;> rfl

theorem rb_skip_char (g : List Char → List Char) (c : Char) (cs r : List Char)
    (hs : startsWithL advancedHeader (c :: cs) = false)
    (hrec : ∀ f, cs.length ≤ f → replaceBlocksFuel advancedHeader g f cs = r) :
    ∀ f, (c :: cs).length ≤ f →
      replaceBlocksFuel advancedHeader g f (c :: cs) = c :: r := by
  intro f hf
  cases f with
  | zero => simp at hf
  | succ n =>
    simp only [replaceBlocksFuel]
    rw [if_neg (by simp [hs])]
    rw [hrec n (by simp at hf; omega)]

theorem rb_skip_seg (g : List Char → List Char) (xs l r : List Char)
    (hxs : ∀ c ∈ xs, ¬(c = ':'))
    (hrec : ∀ f, l.length ≤ f → replaceBlocksFuel advancedHeader g f l = r) :
    ∀ f, (xs ++ l).length ≤ f →
      replaceBlocksFuel advancedHeader g f (xs ++ l) = xs ++ r := by
  induction xs with
  | nil => simpa using hrec
  | cons c cs ih =>
    intro f hf
    simp only [List.cons_append]
    rw [rb_skip_char g c (cs ++ l) (cs ++ r)
      (startsWithL_advanced_ne c _ (hxs c (by simp)))
      (ih (fun d hd => hxs d (by simp [hd]))) f (by simpa using hf)]

theorem rb_match (g : List Char → List Char) (mid after r : List Char)
    (hmid : ∀ c ∈ mid, ¬(c = ':'))
    (hrec : ∀ f, after.length ≤ f → replaceBlocksFuel advancedHeader g f after = r) :
    ∀ f, (advancedHeader ++ (mid ++ (blockClose ++ after))).length ≤ f →
      replaceBlocksFuel advancedHeader g f
          (advancedHeader ++ (mid ++ (blockClose ++ after))) =
        g (advancedHeader ++ mid ++ blockClose) ++ r := by
  intro f hf
  cases f with
  | zero =>
    simp only [List.length_append] at hf
    have hg : advancedHeader.length = 33 := rfl
    omega
  | succ n =>
    have e : advancedHeader ++ (mid ++ (blockClose ++ after)) =
        ':' :: ("::ShowAdvanced(ShowAdvanced=Yes)".data ++ (mid ++ (blockClose ++ after))) := rfl
    rw [e]
    simp only [replaceBlocksFuel]
    have hstart : startsWithL advancedHeader
        (':' :: ("::ShowAdvanced(ShowAdvanced=Yes)".data ++ (mid ++ (blockClose ++ after)))) = true :=
      startsWithL_self advancedHeader (mid ++ (blockClose ++ after))
    rw [if_pos hstart]
    have hdrop : (':' :: ("::ShowAdvanced(ShowAdvanced=Yes)".data ++
        (mid ++ (blockClose ++ after)))).drop advancedHeader.length =
        mid ++ (blockClose ++ after) :=
      List.drop_left advancedHeader (mid ++ (blockClose ++ after))
    have hsplit : splitFirst blockClose ((':' :: ("::ShowAdvanced(ShowAdvanced=Yes)".data ++
        (mid ++ (blockClose ++ after)))).drop advancedHeader.length) = some (mid, after) := by
      rw [hdrop]
      exact splitFirst_plain mid after hmid
    have hlen : after.length ≤ n := by
      simp only [List.length_append] at hf
      have hg : advancedHeader.length = 33 := rfl
      have hb : blockClose.length = 3 := rfl
      omega
    simp only [hsplit, hrec n hlen]

theorem forall_mem_app {p : Char → Prop} {x y : List Char}
    (hx : ∀ c ∈ x, p c) (hy : ∀ c ∈ y, p c) : ∀ c ∈ x ++ y, p c := by
  intro c hc
  rcases List.mem_append.mp hc with h | h
  · exact hx c h
  · exact hy c h

theorem forall_mem_cons_of {p : Char → Prop} {c0 : Char} {y : List Char}
    (h0 : p c0) (hy : ∀ c ∈ y, p c) : ∀ c ∈ c0 :: y, p c := by
  intro c hc
  rcases List.mem_cons.mp hc with h | h
  · rw [h]; exact h0
  · exact hy c h

theorem plain_no_colon {x : List Char} (hx : Plain x) : ∀ c ∈ x, ¬(c = ':') :=
  fun c hc => (plainChar_spec (hx c hc)).2.2.1

theorem plain_no_gt {x : List Char} (hx : Plain x) : ∀ c ∈ x, ¬(c = '>') :=
  fun c hc => (plainChar_spec (hx c hc)).2.1

theorem plain_no_nl {x : List Char} (hx : Plain x) : ∀ c ∈ x, ¬(c = '\n') :=
  fun c hc => (plainChar_spec (hx c hc)).1

theorem dataAlertCons : ">[+alert] ".data = '>' :: "[+alert] ".data := rfl

theorem dataNoteCons : ">[!note] ".data = '>' :: "[!note] ".data := rfl

theorem cm_alert_at_note (z : List Char) :
    calloutMatch "[+alert]".data ('>' :: ("[!note] ".data ++ z)) = none := rfl

theorem cm_alert (a v cont rest : List Char) (ha : ∀ c ∈ a, ¬(c = '\n'))
    (hv : takeContLinesFuel v.length v = (cont, rest)) :
    calloutMatch "[+alert]".data ('>' :: ("[+alert] ".data ++ (a ++ '\n' :: v))) =
      some ('>' :: ("[+alert] ".data ++ (a ++ '\n' :: cont)), rest) := by
  have e1 : "[+alert] ".data ++ (a ++ '\n' :: v) =
      '[' :: ("+alert] ".data ++ (a ++ '\n' :: v)) := rfl
  have hws : ("[+alert] ".data ++ (a ++ '\n' :: v)).takeWhile Char.isWhitespace = [] := by
    rw [e1, List.takeWhile_cons, if_neg (by decide)]
  have hdw : ("[+alert] ".data ++ (a ++ '\n' :: v)).dropWhile Char.isWhitespace =
      "[+alert] ".data ++ (a ++ '\n' :: v) := by
    rw [e1, List.dropWhile_cons, if_neg (by decide)]
  have hstart : startsWithL "[+alert]".data ("[+alert] ".data ++ (a ++ '\n' :: v)) = true :=
    startsWithL_self "[+alert]".data (' ' :: (a ++ '\n' :: v))
  have hdrop : ("[+alert] ".data ++ (a ++ '\n' :: v)).drop ("[+alert]".data).length =
      ' ' :: (a ++ '\n' :: v) :=
    List.drop_left "[+alert]".data (' ' :: (a ++ '\n' :: v))
  have htk : (' ' :: (a ++ '\n' :: v)).takeWhile (· ≠ '\n') = ' ' :: a := by
    have h := takeWhile_nl_append (' ' :: a) v (forall_mem_cons_of (by decide) ha)
    simpa using h
  have hdr : (' ' :: (a ++ '\n' :: v)).dropWhile (· ≠ '\n') = '\n' :: v := by
    have h := dropWhile_nl_append (' ' :: a) v (forall_mem_cons_of (by decide) ha)
    simpa using h
  simp only [calloutMatch, hws, hdw]
  rw [if_pos hstart]
  simp only [hdrop, htk, hdr, takeContLines, hv]
  simp only [List.nil_append, List.append_assoc, List.cons_append]

theorem cm_note (a v cont rest : List Char) (ha : ∀ c ∈ a, ¬(c = '\n'))
    (hv : takeContLinesFuel v.length v = (cont, rest)) :
    calloutMatch "[!note]".data ('>' :: ("[!note] ".data ++ (a ++ '\n' :: v))) =
      some ('>' :: ("[!note] ".data ++ (a ++ '\n' :: cont)), rest) := by
  have e1 : "[!note] ".data ++ (a ++ '\n' :: v) =
      '[' :: ("!note] ".data ++ (a ++ '\n' :: v)) := rfl
  have hws : ("[!note] ".data ++ (a ++ '\n' :: v)).takeWhile Char.isWhitespace = [] := by
    rw [e1, List.takeWhile_cons, if_neg (by decide)]
  have hdw : ("[!note] ".data ++ (a ++ '\n' :: v)).dropWhile Char.isWhitespace =
      "[!note] ".data ++ (a ++ '\n' :: v) := by
    rw [e1, List.dropWhile_cons, if_neg (by decide)]
  have hstart : startsWithL "[!note]".data ("[!note] ".data ++ (a ++ '\n' :: v)) = true :=
    startsWithL_self "[!note]".data (' ' :: (a ++ '\n' :: v))
  have hdrop : ("[!note] ".data ++ (a ++ '\n' :: v)).drop ("[!note]".data).length =
      ' ' :: (a ++ '\n' :: v) :=
    List.drop_left "[!note]".data (' ' :: (a ++ '\n' :: v))
  have htk : (' ' :: (a ++ '\n' :: v)).takeWhile (· ≠ '\n') = ' ' :: a := by
    have h := takeWhile_nl_append (' ' :: a) v (forall_mem_cons_of (by decide) ha)
    simpa using h
  have hdr : (' ' :: (a ++ '\n' :: v)).dropWhile (· ≠ '\n') = '\n' :: v := by
    have h := dropWhile_nl_append (' ' :: a) v (forall_mem_cons_of (by decide) ha)
    simpa using h
  simp only [calloutMatch, hws, hdw]
  rw [if_pos hstart]
  simp only [hdrop, htk, hdr, takeContLines, hv]
  simp only [List.nil_append, List.append_assoc, List.cons_append]

theorem trimWs_gt (x : List Char) : trimWs ('>' :: x) = trimRightWs ('>' :: x) := by
  unfold trimWs
  rw [List.dropWhile_cons, if_neg (by decide)]

theorem trimWs_alert_m (a : List Char) (ha : Plain a) (hne : a ≠ []) :
    trimWs ('>' :: ("[+alert] ".data ++ (a ++ ['\n']))) = alertLine a := by
  rw [trimWs_gt]
  have e : '>' :: ("[+alert] ".data ++ (a ++ ['\n'])) = (alertLine a) ++ ['\n'] := by
    simp [alertLine, dataAlertCons, List.append_assoc]
  rw [e, trimRightWs_append_nl]
  have e2 : alertLine a = ">[+alert] ".data ++ a := rfl
  rw [e2]
  exact trimRightWs_plain_end ">[+alert] ".data a ha hne

theorem trimWs_note_m (a : List Char) (ha : Plain a) (hne : a ≠ []) :
    trimWs ('>' :: ("[!note] ".data ++ (a ++ ['\n']))) = noteLine a := by
  rw [trimWs_gt]
  have e : '>' :: ("[!note] ".data ++ (a ++ ['\n'])) = (noteLine a) ++ ['\n'] := by
    simp [noteLine, dataNoteCons, List.append_assoc]
  rw [e, trimRightWs_append_nl]
  have e2 : noteLine a = ">[!note] ".data ++ a := rfl
  rw [e2]
  exact trimRightWs_plain_end ">[!note] ".data a ha hne

theorem trimWs_merged_m (a n : List Char) (hn : Plain n) (hnne : n ≠ []) :
    trimWs ('>' :: ("[+alert] ".data ++
        (a ++ '\n' :: ('>' :: (("[!note] ".data ++ n) ++ ['\n']))))) =
      alertLine a ++ '\n' :: noteLine n := by
  rw [trimWs_gt]
  have e : '>' :: ("[+alert] ".data ++
      (a ++ '\n' :: ('>' :: (("[!note] ".data ++ n) ++ ['\n'])))) =
      (alertLine a ++ '\n' :: noteLine n) ++ ['\n'] := by
    simp [alertLine, noteLine, dataAlertCons, dataNoteCons, List.append_assoc]
  rw [e, trimRightWs_append_nl]
  have e2 : alertLine a ++ '\n' :: noteLine n =
      (alertLine a ++ ('\n' :: ">[!note] ".data)) ++ n := by
    simp [noteLine, List.append_assoc]
  rw [e2]
  exact trimRightWs_plain_end (alertLine a ++ ('\n' :: ">[!note] ".data)) n hn hnne

theorem cgb_blockClose_tail :
    ∀ f, blockClose.length ≤ f → cleanGuidedBlocksFuel f blockClose = (blockClose, []) := by
  have h1 : ∀ f, ([':'] : List Char).length ≤ f →
      cleanGuidedBlocksFuel f [':'] = ([':'], []) :=
    cgb_skip_char ':' [] [] [] (by decide) (fun f _ => cgb_nil f)
  have h2 : ∀ f, ([':', ':'] : List Char).length ≤ f →
      cleanGuidedBlocksFuel f [':', ':'] = ([':', ':'], []) :=
    cgb_skip_char ':' [':'] [':'] [] (by decide) h1
  exact cgb_skip_char ':' [':', ':'] [':', ':'] [] (by decide) h2

theorem cgb_skip_advHeader (z r : List Char) (acc : List (List Char))
    (hz : ∀ f, z.length ≤ f → cleanGuidedBlocksFuel f z = (r, acc)) :
    ∀ f, (advancedHeader ++ z).length ≤ f →
      cleanGuidedBlocksFuel f (advancedHeader ++ z) = (advancedHeader ++ r, acc) := by
  have h30 : ∀ f, ("ShowAdvanced(ShowAdvanced=Yes)".data ++ z).length ≤ f →
      cleanGuidedBlocksFuel f ("ShowAdvanced(ShowAdvanced=Yes)".data ++ z) =
        ("ShowAdvanced(ShowAdvanced=Yes)".data ++ r, acc) :=
    cgb_skip_seg "ShowAdvanced(ShowAdvanced=Yes)".data z r acc (by decide) hz
  have h2 : ∀ f, (':' :: ("ShowAdvanced(ShowAdvanced=Yes)".data ++ z)).length ≤ f →
      cleanGuidedBlocksFuel f (':' :: ("ShowAdvanced(ShowAdvanced=Yes)".data ++ z)) =
        (':' :: ("ShowAdvanced(ShowAdvanced=Yes)".data ++ r), acc) :=
    cgb_skip_char ':' _ _ acc rfl h30
  have h1 : ∀ f, (':' :: ':' :: ("ShowAdvanced(ShowAdvanced=Yes)".data ++ z)).length ≤ f →
      cleanGuidedBlocksFuel f (':' :: ':' :: ("ShowAdvanced(ShowAdvanced=Yes)".data ++ z)) =
        (':' :: ':' :: ("ShowAdvanced(ShowAdvanced=Yes)".data ++ r), acc) :=
    cgb_skip_char ':' _ _ acc rfl h2
  exact cgb_skip_char ':' _ _ acc rfl h1

theorem cgb_advancedTail (link : List Char) (hl : Plain link) :
    ∀ f, ('\n' :: advancedDoc link).length ≤ f →
      cleanGuidedBlocksFuel f ('\n' :: advancedDoc link) =
        ('\n' :: advancedDoc link, []) := by
  have hnl2 : ∀ f, ('\n' :: blockClose).length ≤ f →
      cleanGuidedBlocksFuel f ('\n' :: blockClose) = ('\n' :: blockClose, []) :=
    cgb_skip_char '\n' blockClose blockClose []
      (startsWithL_guided_ne '\n' _ (by decide)) cgb_blockClose_tail
  have hlink : ∀ f, (link ++ ('\n' :: blockClose)).length ≤ f →
      cleanGuidedBlocksFuel f (link ++ ('\n' :: blockClose)) =
        (link ++ ('\n' :: blockClose), []) :=
    cgb_skip_seg link ('\n' :: blockClose) ('\n' :: blockClose) []
      (plain_no_colon hl) hnl2
  have hnl3 : ∀ f, ('\n' :: (link ++ ('\n' :: blockClose))).length ≤ f →
      cleanGuidedBlocksFuel f ('\n' :: (link ++ ('\n' :: blockClose))) =
        ('\n' :: (link ++ ('\n' :: blockClose)), []) :=
    cgb_skip_char '\n' _ _ [] (startsWithL_guided_ne '\n' _ (by decide)) hlink
  have hadv : ∀ f, (advancedHeader ++ ('\n' :: (link ++ ('\n' :: blockClose)))).length ≤ f →
      cleanGuidedBlocksFuel f (advancedHeader ++ ('\n' :: (link ++ ('\n' :: blockClose)))) =
        (advancedHeader ++ ('\n' :: (link ++ ('\n' :: blockClose))), []) :=
    cgb_skip_advHeader _ _ [] hnl3
  exact cgb_skip_char '\n' _ _ [] (startsWithL_guided_ne '\n' _ (by decide)) hadv

theorem ec_stop (tag xs : List Char) (hxs : ∀ c ∈ xs, ¬(c = '>')) :
    ∀ f, xs.length ≤ f → extractCalloutsFuel tag f xs = (xs, []) := by
  have h := ec_skip_seg tag xs [] [] [] hxs (fun f _ => ec_nil tag f)
  simpa using h

theorem passA_alert (n a : List Char) (hn : Plain n) (ha : Plain a) :
    ∀ f, (guidedHeader ++ ('\n' :: ('>' :: ("[!note] ".data ++
        (n ++ ('\n' :: ('>' :: ("[+alert] ".data ++
          (a ++ ('\n' :: blockClose)))))))))).length ≤ f →
      extractCalloutsFuel "[+alert]".data f
          (guidedHeader ++ ('\n' :: ('>' :: ("[!note] ".data ++
            (n ++ ('\n' :: ('>' :: ("[+alert] ".data ++
              (a ++ ('\n' :: blockClose)))))))))) =
        (guidedHeader ++ ('\n' :: ('>' :: ("[!note] ".data ++
          (n ++ ('\n' :: blockClose))))),
         [trimWs ('>' :: ("[+alert] ".data ++ (a ++ '\n' :: [])))]) := by
  have hbc := ec_stop "[+alert]".data blockClose (by decide)
  have hm3 : calloutMatch "[+alert]".data
      ('>' :: ("[+alert] ".data ++ (a ++ '\n' :: blockClose))) =
      some ('>' :: ("[+alert] ".data ++ (a ++ '\n' :: [])), blockClose) :=
    cm_alert a blockClose [] blockClose (plain_no_nl ha) (by decide)
  have hlen3 : blockClose.length <
      ('>' :: ("[+alert] ".data ++ (a ++ '\n' :: blockClose))).length := by
    simp only [List.length_cons, List.length_append]
    omega
  have h3 := ec_match "[+alert]".data
    ('>' :: ("[+alert] ".data ++ (a ++ '\n' :: blockClose)))
    ('>' :: ("[+alert] ".data ++ (a ++ '\n' :: []))) blockClose blockClose []
    hm3 hlen3 hbc
  have h2a := ec_skip_char "[+alert]".data '\n'
    ('>' :: ("[+alert] ".data ++ (a ++ '\n' :: blockClose)))
    blockClose [trimWs ('>' :: ("[+alert] ".data ++ (a ++ '\n' :: [])))]
    (calloutMatch_ne "[+alert]".data '\n' _ (by decide)) h3
  have h2b := ec_skip_seg "[+alert]".data n
    ('\n' :: ('>' :: ("[+alert] ".data ++ (a ++ '\n' :: blockClose))))
    ('\n' :: blockClose) [trimWs ('>' :: ("[+alert] ".data ++ (a ++ '\n' :: [])))]
    (plain_no_gt hn) h2a
  have h2c := ec_skip_seg "[+alert]".data "[!note] ".data
    (n ++ ('\n' :: ('>' :: ("[+alert] ".data ++ (a ++ '\n' :: blockClose)))))
    (n ++ ('\n' :: blockClose))
    [trimWs ('>' :: ("[+alert] ".data ++ (a ++ '\n' :: [])))]
    (by decide) h2b
  have h2 := ec_skip_char "[+alert]".data '>'
    ("[!note] ".data ++ (n ++ ('\n' :: ('>' :: ("[+alert] ".data ++
      (a ++ '\n' :: blockClose))))))
    ("[!note] ".data ++ (n ++ ('\n' :: blockClose)))
    [trimWs ('>' :: ("[+alert] ".data ++ (a ++ '\n' :: [])))]
    (cm_alert_at_note _) h2c
  have h1a := ec_skip_char "[+alert]".data '\n'
    ('>' :: ("[!note] ".data ++ (n ++ ('\n' :: ('>' :: ("[+alert] ".data ++
      (a ++ '\n' :: blockClose)))))))
    ('>' :: ("[!note] ".data ++ (n ++ ('\n' :: blockClose))))
    [trimWs ('>' :: ("[+alert] ".data ++ (a ++ '\n' :: [])))]
    (calloutMatch_ne "[+alert]".data '\n' _ (by decide)) h2
  have h1 := ec_skip_seg "[+alert]".data guidedHeader
    ('\n' :: ('>' :: ("[!note] ".data ++ (n ++ ('\n' :: ('>' :: ("[+alert] ".data ++
      (a ++ '\n' :: blockClose))))))))
    ('\n' :: ('>' :: ("[!note] ".data ++ (n ++ ('\n' :: blockClose)))))
    [trimWs ('>' :: ("[+alert] ".data ++ (a ++ '\n' :: [])))]
    (by decide) h1a
  exact h1

theorem passA_note (n : List Char) (hn : Plain n) :
    ∀ f, (guidedHeader ++ ('\n' :: ('>' :: ("[!note] ".data ++
        (n ++ ('\n' :: blockClose)))))).length ≤ f →
      extractCalloutsFuel "[!note]".data f
          (guidedHeader ++ ('\n' :: ('>' :: ("[!note] ".data ++
            (n ++ ('\n' :: blockClose)))))) =
        (guidedHeader ++ ('\n' :: blockClose),
         [trimWs ('>' :: ("[!note] ".data ++ (n ++ '\n' :: [])))]) := by
  have hbc := ec_stop "[!note]".data blockClose (by decide)
  have hm : calloutMatch "[!note]".data
      ('>' :: ("[!note] ".data ++ (n ++ '\n' :: blockClose))) =
      some ('>' :: ("[!note] ".data ++ (n ++ '\n' :: [])), blockClose) :=
    cm_note n blockClose [] blockClose (plain_no_nl hn) (by decide)
  have hlen : blockClose.length <
      ('>' :: ("[!note] ".data ++ (n ++ '\n' :: blockClose))).length := by
    simp only [List.length_cons, List.length_append]
    omega
  have h3 := ec_match "[!note]".data
    ('>' :: ("[!note] ".data ++ (n ++ '\n' :: blockClose)))
    ('>' :: ("[!note] ".data ++ (n ++ '\n' :: []))) blockClose blockClose []
    hm hlen hbc
  have h1a := ec_skip_char "[!note]".data '\n'
    ('>' :: ("[!note] ".data ++ (n ++ '\n' :: blockClose)))
    blockClose [trimWs ('>' :: ("[!note] ".data ++ (n ++ '\n' :: [])))]
    (calloutMatch_ne "[!note]".data '\n' _ (by decide)) h3
  have h1 := ec_skip_seg "[!note]".data guidedHeader
    ('\n' :: ('>' :: ("[!note] ".data ++ (n ++ '\n' :: blockClose))))
    ('\n' :: blockClose)
    [trimWs ('>' :: ("[!note] ".data ++ (n ++ '\n' :: [])))]
    (by decide) h1a
  exact h1

theorem passB_alert (a n : List Char) (ha : Plain a) (hn : Plain n) :
    ∀ f, (guidedHeader ++ ('\n' :: ('>' :: ("[+alert] ".data ++
        (a ++ ('\n' :: ('>' :: ("[!note] ".data ++
          (n ++ ('\n' :: blockClose)))))))))).length ≤ f →
      extractCalloutsFuel "[+alert]".data f
          (guidedHeader ++ ('\n' :: ('>' :: ("[+alert] ".data ++
            (a ++ ('\n' :: ('>' :: ("[!note] ".data ++
              (n ++ ('\n' :: blockClose)))))))))) =
        (guidedHeader ++ ('\n' :: blockClose),
         [trimWs ('>' :: ("[+alert] ".data ++
           (a ++ '\n' :: ('>' :: (("[!note] ".data ++ n) ++ '\n' :: [])))))]) := by
  have hbc := ec_stop "[+alert]".data blockClose (by decide)
  have ht : ("[!note] ".data ++ (n ++ ('\n' :: blockClose))).dropWhile (· ≠ '\n') =
      '\n' :: blockClose := by
    have h := dropWhile_nl_append ("[!note] ".data ++ n) blockClose
      (forall_mem_app (by decide) (plain_no_nl hn))
    simpa [List.append_assoc] using h
  have htk : ("[!note] ".data ++ (n ++ ('\n' :: blockClose))).takeWhile (· ≠ '\n') =
      "[!note] ".data ++ n := by
    have h := takeWhile_nl_append ("[!note] ".data ++ n) blockClose
      (forall_mem_app (by decide) (plain_no_nl hn))
    simpa [List.append_assoc] using h
  have htcl := tcl_unit ("[!note] ".data ++ (n ++ ('\n' :: blockClose)))
    blockClose [] blockClose ht
    (fun f _ => tcl_ne ':' "::".data (by decide) f)
  have hv := htcl _ le_rfl
  rw [htk] at hv
  have hm : calloutMatch "[+alert]".data
      ('>' :: ("[+alert] ".data ++ (a ++ '\n' ::
        ('>' :: ("[!note] ".data ++ (n ++ ('\n' :: blockClose))))))) =
      some ('>' :: ("[+alert] ".data ++
        (a ++ '\n' :: ('>' :: (("[!note] ".data ++ n) ++ '\n' :: [])))), blockClose) :=
    cm_alert a ('>' :: ("[!note] ".data ++ (n ++ ('\n' :: blockClose))))
      ('>' :: (("[!note] ".data ++ n) ++ '\n' :: [])) blockClose
      (plain_no_nl ha) hv
  have hlen : blockClose.length <
      ('>' :: ("[+alert] ".data ++ (a ++ '\n' ::
        ('>' :: ("[!note] ".data ++ (n ++ ('\n' :: blockClose))))))).length := by
    simp only [List.length_cons, List.length_append]
    omega
  have h3 := ec_match "[+alert]".data
    ('>' :: ("[+alert] ".data ++ (a ++ '\n' ::
      ('>' :: ("[!note] ".data ++ (n ++ ('\n' :: blockClose)))))))
    ('>' :: ("[+alert] ".data ++
      (a ++ '\n' :: ('>' :: (("[!note] ".data ++ n) ++ '\n' :: [])))))
    blockClose blockClose [] hm hlen hbc
  have h1a := ec_skip_char "[+alert]".data '\n'
    ('>' :: ("[+alert] ".data ++ (a ++ '\n' ::
      ('>' :: ("[!note] ".data ++ (n ++ ('\n' :: blockClose)))))))
    blockClose
    [trimWs ('>' :: ("[+alert] ".data ++
      (a ++ '\n' :: ('>' :: (("[!note] ".data ++ n) ++ '\n' :: [])))))]
    (calloutMatch_ne "[+alert]".data '\n' _ (by decide)) h3
  have h1 := ec_skip_seg "[+alert]".data guidedHeader
    ('\n' :: ('>' :: ("[+alert] ".data ++ (a ++ '\n' ::
      ('>' :: ("[!note] ".data ++ (n ++ ('\n' :: blockClose))))))))
    ('\n' :: blockClose)
    [trimWs ('>' :: ("[+alert] ".data ++
      (a ++ '\n' :: ('>' :: (("[!note] ".data ++ n) ++ '\n' :: [])))))]
    (by decide) h1a
  exact h1

theorem cleanGuidedBlock_A (n a : List Char) (hn : Plain n) (ha : Plain a)
    (hnne : n ≠ []) (hane : a ≠ []) :
    cleanGuidedBlock (guidedHeader ++
        ('\n' :: (noteLine n ++ '\n' :: (alertLine a ++ ['\n']))) ++ blockClose) =
      (guidedHeader ++ ('\n' :: blockClose), [alertLine a, noteLine n]) := by
  have eS : guidedHeader ++
      ('\n' :: (noteLine n ++ '\n' :: (alertLine a ++ ['\n']))) ++ blockClose =
      guidedHeader ++ ('\n' :: ('>' :: ("[!note] ".data ++
        (n ++ ('\n' :: ('>' :: ("[+alert] ".data ++
          (a ++ ('\n' :: blockClose))))))))) := by
    simp [noteLine, alertLine, dataNoteCons, dataAlertCons, List.append_assoc]
  unfold cleanGuidedBlock
  rw [eS]
  have h1 := passA_alert n a hn ha _ le_rfl
  have h2 := passA_note n hn _ le_rfl
  have h3 : extractCalloutsFuel "[!help]".data
      (guidedHeader ++ ('\n' :: blockClose)).length
      (guidedHeader ++ ('\n' :: blockClose)) =
      (guidedHeader ++ ('\n' :: blockClose), []) := by decide
  have h4 : replaceLit ">\n>\n>\n".data ">\n>\n".data
      (guidedHeader ++ ('\n' :: blockClose)) =
      guidedHeader ++ ('\n' :: blockClose) := by decide
  simp only [extractCallouts, h1, h2, h3, h4]
  rw [trimWs_alert_m a ha hane, trimWs_note_m n hn hnne]
  simp

theorem cleanGuidedBlock_B (a n : List Char) (ha : Plain a) (hn : Plain n)
    (hane : a ≠ []) (hnne : n ≠ []) :
    cleanGuidedBlock (guidedHeader ++
        ('\n' :: (alertLine a ++ '\n' :: (noteLine n ++ ['\n']))) ++ blockClose) =
      (guidedHeader ++ ('\n' :: blockClose), [alertLine a ++ '\n' :: noteLine n]) := by
  have eS : guidedHeader ++
      ('\n' :: (alertLine a ++ '\n' :: (noteLine n ++ ['\n']))) ++ blockClose =
      guidedHeader ++ ('\n' :: ('>' :: ("[+alert] ".data ++
        (a ++ ('\n' :: ('>' :: ("[!note] ".data ++
          (n ++ ('\n' :: blockClose))))))))) := by
    simp [noteLine, alertLine, dataNoteCons, dataAlertCons, List.append_assoc]
  unfold cleanGuidedBlock
  rw [eS]
  have h1 := passB_alert a n ha hn _ le_rfl
  have h2 : extractCalloutsFuel "[!note]".data
      (guidedHeader ++ ('\n' :: blockClose)).length
      (guidedHeader ++ ('\n' :: blockClose)) =
      (guidedHeader ++ ('\n' :: blockClose), []) := by decide
  have h3 : extractCalloutsFuel "[!help]".data
      (guidedHeader ++ ('\n' :: blockClose)).length
      (guidedHeader ++ ('\n' :: blockClose)) =
      (guidedHeader ++ ('\n' :: blockClose), []) := by decide
  have h4 : replaceLit ">\n>\n>\n".data ">\n>\n".data
      (guidedHeader ++ ('\n' :: blockClose)) =
      guidedHeader ++ ('\n' :: blockClose) := by decide
  simp only [extractCallouts, h1, h2, h3, h4]
  rw [trimWs_merged_m a n hn hnne]
  simp

theorem rb_advDoc (g : List Char → List Char) (link : List Char) (hl : Plain link) :
    ∀ f, (advancedDoc link).length ≤ f →
      replaceBlocksFuel advancedHeader g f (advancedDoc link) =
        g (advancedHeader ++ ('\n' :: (link ++ ['\n'])) ++ blockClose) := by
  intro f hf
  have hmid : ∀ c ∈ '\n' :: (link ++ ['\n']), ¬(c = ':') :=
    forall_mem_cons_of (by decide) (forall_mem_app (plain_no_colon hl) (by decide))
  have e : advancedDoc link =
      advancedHeader ++ (('\n' :: (link ++ ['\n'])) ++ (blockClose ++ [])) := by
    simp [advancedDoc, List.append_assoc]
  rw [e] at hf ⊢
  rw [rb_match g ('\n' :: (link ++ ['\n'])) [] [] hmid (fun f _ => rb_nil g f) f hf]
  simp

theorem rb_final (g : List Char → List Char) (link : List Char) (hl : Plain link) :
    ∀ f, ((guidedHeader ++ ('\n' :: blockClose)) ++ ('\n' :: advancedDoc link)).length ≤ f →
      replaceBlocksFuel advancedHeader g f
          ((guidedHeader ++ ('\n' :: blockClose)) ++ ('\n' :: advancedDoc link)) =
        (guidedHeader ++ ('\n' :: blockClose)) ++
          ('\n' :: g (advancedHeader ++ ('\n' :: (link ++ ['\n'])) ++ blockClose)) := by
  have h0 : ∀ f, ('\n' :: advancedDoc link).length ≤ f →
      replaceBlocksFuel advancedHeader g f ('\n' :: advancedDoc link) =
        '\n' :: g (advancedHeader ++ ('\n' :: (link ++ ['\n'])) ++ blockClose) :=
    rb_skip_char g '\n' (advancedDoc link) _
      (startsWithL_advanced_ne '\n' _ (by decide)) (rb_advDoc g link hl)
  have h1 := rb_skip_char g ':' ('\n' :: advancedDoc link) _ rfl h0
  have h2 := rb_skip_char g ':' (':' :: ('\n' :: advancedDoc link)) _ rfl h1
  have h3 := rb_skip_char g ':' (':' :: (':' :: ('\n' :: advancedDoc link))) _ rfl h2
  have h4 := rb_skip_char g '\n' (':' :: (':' :: (':' :: ('\n' :: advancedDoc link)))) _
    (startsWithL_advanced_ne '\n' _ (by decide)) h3
  have h5 := rb_skip_seg g "ShowGuided(ShowGuided=Yes)".data
    ('\n' :: (':' :: (':' :: (':' :: ('\n' :: advancedDoc link))))) _
    (by decide) h4
  have h6 := rb_skip_char g ':'
    ("ShowGuided(ShowGuided=Yes)".data ++
      ('\n' :: (':' :: (':' :: (':' :: ('\n' :: advancedDoc link)))))) _ rfl h5
  have h7 := rb_skip_char g ':'
    (':' :: ("ShowGuided(ShowGuided=Yes)".data ++
      ('\n' :: (':' :: (':' :: (':' :: ('\n' :: advancedDoc link))))))) _ rfl h6
  have h8 := rb_skip_char g ':'
    (':' :: (':' :: ("ShowGuided(ShowGuided=Yes)".data ++
      ('\n' :: (':' :: (':' :: (':' :: ('\n' :: advancedDoc link)))))))) _ rfl h7
  exact h8

theorem relocate_A (n a link : List Char) (hn : Plain n) (ha : Plain a)
    (hl : Plain link) (hnne : n ≠ []) (hane : a ≠ []) :
    extractAndRelocateAlertBlocks (docNoteThenAlert n a link) =
      guidedDoc ['\n'] ++ '\n' :: (advancedDoc link ++ "\n\n".data ++
        (alertLine a ++ "\n>\n".data ++ noteLine n)) := by
  have eD : docNoteThenAlert n a link =
      guidedHeader ++ (('\n' :: (noteLine n ++ '\n' :: (alertLine a ++ ['\n']))) ++
        (blockClose ++ ('\n' :: advancedDoc link))) := by
    simp [docNoteThenAlert, guidedDoc, List.append_assoc]
  have hmid : ∀ c ∈ '\n' :: (noteLine n ++ '\n' :: (alertLine a ++ ['\n'])), ¬(c = ':') := by
    refine forall_mem_cons_of (by decide)
      (forall_mem_app ?h1 (forall_mem_cons_of (by decide)
        (forall_mem_app ?h2 (by decide))))
    case h1 => exact forall_mem_app (by decide) (plain_no_colon hn)
    case h2 => exact forall_mem_app (by decide) (plain_no_colon ha)
  have hcgb := cgb_match ('\n' :: (noteLine n ++ '\n' :: (alertLine a ++ ['\n'])))
    ('\n' :: advancedDoc link) ('\n' :: advancedDoc link)
    (guidedHeader ++ ('\n' :: blockClose))
    [alertLine a, noteLine n] []
    hmid (cleanGuidedBlock_A n a hn ha hnne hane) (cgb_advancedTail link hl)
  unfold extractAndRelocateAlertBlocks
  rw [eD]
  have hrun := hcgb _ le_rfl
  simp only [hrun, List.append_nil]
  rw [if_neg (by simp)]
  simp only [replaceBlocks]
  rw [rb_final (fun adv => adv ++ "\n\n".data ++ joinBlocks [alertLine a, noteLine n])
    link hl _ le_rfl]
  simp [guidedDoc, advancedDoc, joinBlocks, alertLine, noteLine, List.append_assoc]

theorem relocate_B (a n link : List Char) (ha : Plain a) (hn : Plain n)
    (hl : Plain link) (hane : a ≠ []) (hnne : n ≠ []) :
    extractAndRelocateAlertBlocks (docAlertThenNote a n link) =
      guidedDoc ['\n'] ++ '\n' :: (advancedDoc link ++ "\n\n".data ++
        (alertLine a ++ '\n' :: noteLine n)) := by
  have eD : docAlertThenNote a n link =
      guidedHeader ++ (('\n' :: (alertLine a ++ '\n' :: (noteLine n ++ ['\n']))) ++
        (blockClose ++ ('\n' :: advancedDoc link))) := by
    simp [docAlertThenNote, guidedDoc, List.append_assoc]
  have hmid : ∀ c ∈ '\n' :: (alertLine a ++ '\n' :: (noteLine n ++ ['\n'])), ¬(c = ':') := by
    refine forall_mem_cons_of (by decide)
      (forall_mem_app ?h1 (forall_mem_cons_of (by decide)
        (forall_mem_app ?h2 (by decide))))
    case h1 => exact forall_mem_app (by decide) (plain_no_colon ha)
    case h2 => exact forall_mem_app (by decide) (plain_no_colon hn)
  have hcgb := cgb_match ('\n' :: (alertLine a ++ '\n' :: (noteLine n ++ ['\n'])))
    ('\n' :: advancedDoc link) ('\n' :: advancedDoc link)
    (guidedHeader ++ ('\n' :: blockClose))
    [alertLine a ++ '\n' :: noteLine n] []
    hmid (cleanGuidedBlock_B a n ha hn hane hnne) (cgb_advancedTail link hl)
  unfold extractAndRelocateAlertBlocks
  rw [eD]
  have hrun := hcgb _ le_rfl
  simp only [hrun, List.append_nil]
  rw [if_neg (by simp)]
  simp only [replaceBlocks]
  rw [rb_final (fun adv => adv ++ "\n\n".data ++
    joinBlocks [alertLine a ++ '\n' :: noteLine n]) link hl _ le_rfl]
  simp [guidedDoc, advancedDoc, joinBlocks, alertLine, noteLine, List.append_assoc]


/-- C7 (amended): the callout-relocation pass removes callouts from
guided-hint blocks and appends them after every advanced-hint block; an
extracted block is the callout tag line together with all immediately
following blockquote lines, so a callout directly followed by another
callout is extracted as one merged block; separately extracted blocks are
emitted grouped by tag-pass order (alerts, then notes, then helps), the
whole group preceded by one plain blank line and separately extracted
blocks joined by one blank blockquote line. Proved universally over
single-line plain payloads for a note-then-alert document (two separate
blocks, type-grouped, blank-blockquote separator), for an adjacent
alert-then-note document (one merged block, no separator, the note not
regrouped by type), and on a concrete document with two advanced-hint
blocks (the group is duplicated after each). -/
theorem C7_relocation_parametric :
    (∀ n a link : List Char, Plain n → Plain a → Plain link → n ≠ [] → a ≠ [] →
      extractAndRelocateAlertBlocks (docNoteThenAlert n a link) =
        guidedDoc ['\n'] ++ '\n' :: (advancedDoc link ++ "\n\n".data ++
          (alertLine a ++ "\n>\n".data ++ noteLine n))) ∧
    (∀ a n link : List Char, Plain a → Plain n → Plain link → a ≠ [] → n ≠ [] →
      extractAndRelocateAlertBlocks (docAlertThenNote a n link) =
        guidedDoc ['\n'] ++ '\n' :: (advancedDoc link ++ "\n\n".data ++
          (alertLine a ++ '\n' :: noteLine n))) ∧
    extractAndRelocateAlertBlocks
        ":::ShowGuided(ShowGuided=Yes)\n>[+alert] A\n:::\n:::ShowAdvanced(ShowAdvanced=Yes)\na1\n:::\n:::ShowAdvanced(ShowAdvanced=Yes)\na2\n:::".data =
      ":::ShowGuided(ShowGuided=Yes)\n:::\n:::ShowAdvanced(ShowAdvanced=Yes)\na1\n:::\n\n>[+alert] A\n:::ShowAdvanced(ShowAdvanced=Yes)\na2\n:::\n\n>[+alert] A".data :=
  ⟨fun n a link hn ha hl hnne hane => relocate_A n a link hn ha hl hnne hane,
   fun a n link ha hn hl hane hnne => relocate_B a n link ha hn hl hane hnne,
   by decide⟩

/-- C7 witness: the parametric relocation theorem applied at concrete
payloads, with every hypothesis discharged by evaluation. -/
theorem C7_relocation_parametric_witness :
    (Plain "N".data ∧ Plain "A".data ∧ Plain "link".data ∧
      "N".data ≠ [] ∧ "A".data ≠ [] ∧
      extractAndRelocateAlertBlocks
          (docNoteThenAlert "N".data "A".data "link".data) =
        guidedDoc ['\n'] ++ '\n' :: (advancedDoc "link".data ++ "\n\n".data ++
          (alertLine "A".data ++ "\n>\n".data ++ noteLine "N".data))) ∧
    extractAndRelocateAlertBlocks
        (docAlertThenNote "A".data "N".data "link".data) =
      guidedDoc ['\n'] ++ '\n' :: (advancedDoc "link".data ++ "\n\n".data ++
        (alertLine "A".data ++ '\n' :: noteLine "N".data)) :=
  ⟨⟨by decide, by decide, by decide, by decide, by decide,
    C7_relocation_parametric.1 "N".data "A".data "link".data
      (by decide) (by decide) (by decide) (by decide) (by decide)⟩,
   C7_relocation_parametric.2.1 "A".data "N".data "link".data
     (by decide) (by decide) (by decide) (by decide) (by decide)⟩
